import Mathlib

/-!
Verification of the Avunu/messaging chat backend against its specification.

The development shallowly embeds the Python modules
`messaging/api/chat/helpers.py`, `messaging/api/chat/retrieve.py`,
`messaging/api/chat/formatting.py`, `messaging/api/chat/send.py`,
`messaging/api/twilio_webhook.py` and `messaging/custom/contact.py`.

Modelling conventions:
- Python strings are embedded as `List Char` (abbreviated `Str`); string
  literals are written with `str "..."`.
- Database rows (the frappe Communication doctype) are explicit records,
  and the database is an explicit list of records carried through the
  functions.  SQL `ORDER BY` is modelled as a stable sort (ties keep
  source order), and SQL filters as `List.filter`.
- External collaborators (the SMS and email transports, the frappe
  insert machinery, the email-reply-parser library, the phonenumbers
  library) are modelled as explicit oracles or as restricted functional
  models, each documented at its definition.
- Fallible Python code is embedded with `Except`/`Option`; a caught
  exception is an `Except.error` value consumed by the handler that the
  source installs.
-/

/-- Python strings are modelled as lists of characters. -/
abbrev Str := List Char

/-- Converts a Lean string literal to the `Str` model. -/
def str (s : String) : Str := s.toList

/-- Model of the Python `str.isspace` test for the ASCII whitespace
characters that occur in this code base (space, tab, newline, carriage
return, vertical tab, form feed). -/
def pyIsSpace (c : Char) : Bool :=
  c = ' ' || c = '\t' || c = '\n' || c = '\r' || c = '\x0b' || c = '\x0c'

/-- Model of Python `str.lstrip()` (no argument): drop leading whitespace. -/
def pyLstrip (s : Str) : Str := s.dropWhile pyIsSpace

/-- Model of Python `str.rstrip()` (no argument): drop trailing whitespace. -/
def pyRstrip (s : Str) : Str := (s.reverse.dropWhile pyIsSpace).reverse

/-- Model of Python `str.strip()` (no argument). -/
def pyStrip (s : Str) : Str := pyRstrip (pyLstrip s)

/-- Model of Python `str.lower()` for the ASCII texts of this code base. -/
def pyLower (s : Str) : Str := s.map Char.toLower

/-- Model of Python `str.split(sep)` for a one-character separator:
`"".split(sep)` is `[""]`, and every separator occurrence opens a new
field. -/
def pySplitChar (sep : Char) : Str → List Str
  | [] => [[]]
  | c :: rest =>
    match pySplitChar sep rest with
    | [] => [[]]
    | s :: ss => if c = sep then [] :: s :: ss else (c :: s) :: ss

/-- Case-insensitive literal-prefix test: the pattern is given in lower
case and compared against the lower-cased input. -/
def ciIsPrefix (pat : String) (s : Str) : Bool :=
  List.isPrefixOf (str pat) (pyLower s)

/-- Substring containment, the model of SQL `LIKE "%needle%"` and of the
Python `in` test on strings (case-sensitive form). -/
def containsSub (needle : Str) : Str → Bool
  | [] => needle.isEmpty
  | c :: rest => List.isPrefixOf needle (c :: rest) || containsSub needle rest

/-- Case-insensitive substring containment, the model of MySQL `LIKE`
under its default case-insensitive collation. -/
def ciContainsSub (needle s : Str) : Bool :=
  containsSub (pyLower needle) (pyLower s)

/-- Python truthiness of an optional integer database value (`None` and
`0` are falsy). -/
def pyTruthyNat : Option Nat → Bool
  | none => false
  | some n => n ≠ 0

/-- Result of `parse_room_id` in `messaging/api/chat/helpers.py`. -/
structure RoomParts where
  medium : Option Str
  identifier : Option Str
  reference_doctype : Option Str
  reference_name : Option Str
  deriving DecidableEq, Repr

/-- Embedding of `format_room_id` from `messaging/api/chat/helpers.py`:
`"{medium}:{identifier}"`, with an optional
`":{reference_doctype}:{reference_name}"` suffix when both reference
parts are truthy. -/
def format_room_id (medium identifier : Str)
    (reference_doctype reference_name : Option Str) : Str :=
  let base := medium ++ ':' :: identifier
  match reference_doctype, reference_name with
  | some dt, some n => if dt ≠ [] ∧ n ≠ [] then base ++ ':' :: dt ++ ':' :: n else base
  | _, _ => base

/-- Embedding of `parse_room_id` from `messaging/api/chat/helpers.py`:
split on `":"` and read off up to four components. -/
def parse_room_id (room_id : Str) : RoomParts :=
  let parts := pySplitChar ':' room_id
  { medium := parts[0]?
    identifier := parts[1]?
    reference_doctype := parts[2]?
    reference_name := parts[3]? }

/-- Embedding of the frappe Communication row, restricted to the columns
this code base selects.  NULL text columns are conflated with the empty
string (the Python code treats both as falsy in every use site); `seen`
keeps its NULL-vs-integer distinction because the SQL filter `seen == 0`
and the Python truthiness test differ on NULL. -/
structure Communication where
  name : Str
  communication_type : Str
  communication_medium : Str
  sent_or_received : Str
  sender : Str
  sender_full_name : Str
  recipients : Str
  phone_no : Str
  subject : Str
  content : Str
  text_content : Str
  communication_date : Nat
  seen : Option Nat
  status : Str
  delivery_status : Str
  message_id : Str
  in_reply_to : Str
  reference_doctype : Str
  reference_name : Str
  user : Str
  has_attachment : Bool
  deriving DecidableEq, Repr

/-- Embedding of a frappe User row restricted to the columns used here. -/
structure UserRec where
  name : Str
  full_name : Str
  email_signature : Str
  deriving DecidableEq, Repr

/-- Embedding of a frappe File row restricted to the columns used here. -/
structure FileDoc where
  file_name : Str
  file_url : Str
  file_size : Nat
  file_type : Str
  attached_to_doctype : Str
  attached_to_name : Str
  deriving DecidableEq, Repr

/-- The slice of the frappe document store that the chat API reads and
writes. -/
structure Database where
  comms : List Communication
  users : List UserRec
  files : List FileDoc
  deriving DecidableEq, Repr

/-- External-party identifier of a communication, from the grouping loop
of `get_rooms` (`retrieve.py` lines 138 to 151): phone number for
SMS/Phone, sender for received email, first comma-separated recipient
for sent email. -/
def comm_room_identifier (c : Communication) : Str :=
  if c.communication_medium = str "SMS" ∨ c.communication_medium = str "Phone" then
    c.phone_no
  else if c.sent_or_received = str "Received" then
    c.sender
  else if c.recipients ≠ [] then
    pyStrip ((pySplitChar ',' c.recipients).headD [])
  else []

/-- External display name attached to a communication in the same loop:
only received email carries `sender_full_name`. -/
def comm_external_name (c : Communication) : Str :=
  if c.communication_medium = str "SMS" ∨ c.communication_medium = str "Phone" then []
  else if c.sent_or_received = str "Received" then c.sender_full_name
  else []

/-- Room key `f"{medium_type}:{identifier}"` from `retrieve.py` line 152. -/
def comm_room_id (c : Communication) : Str :=
  c.communication_medium ++ ':' :: comm_room_identifier c

/-- Accumulated per-room state of the grouping loop of `get_rooms`
(the entry of `room_map`): the representative (first seen) record plus
the mutable bookkeeping fields. -/
structure RoomAccum where
  rep : Communication
  unread_count : Nat
  ext_identifier : Str
  ext_name : Str
  has_unreplied : Bool
  last_received_status : Option Str
  deriving DecidableEq, Repr

/-- Python truthiness of the `_last_received_status` field: `None` and
the empty string are falsy. -/
def lrsFalsy : Option Str → Bool
  | none => true
  | some s => s.isEmpty

/-- Fresh `room_map` entry seeded from the first communication observed
for a room (`retrieve.py` lines 154 to 162). -/
def initAccum (c : Communication) : RoomAccum :=
  { rep := c
    unread_count := 0
    ext_identifier := comm_room_identifier c
    ext_name := comm_external_name c
    has_unreplied := false
    last_received_status := none }

/-- First block of the grouping loop body (`retrieve.py` lines 164 to
171): while the tracked last-received-status is falsy, a received record
stores its status and can set the unreplied flag. -/
def roomStepStatus (a : RoomAccum) (c : Communication) : RoomAccum :=
  if c.sent_or_received = str "Received" then
    if lrsFalsy a.last_received_status then
      { a with
        last_received_status := some c.status
        has_unreplied := a.has_unreplied ||
          !(c.status = str "Replied" || c.status = str "Closed") }
    else a
  else a

/-- Second block (`retrieve.py` lines 173 to 174): backfill the external
display name when it is still empty. -/
def roomStepName (a : RoomAccum) (c : Communication) : RoomAccum :=
  if comm_external_name c ≠ [] ∧ a.ext_name = [] then
    { a with ext_name := comm_external_name c }
  else a

/-- Third block (`retrieve.py` lines 176 to 177): count unseen received
records. -/
def roomStepUnread (a : RoomAccum) (c : Communication) : RoomAccum :=
  if c.sent_or_received = str "Received" ∧ ¬ pyTruthyNat c.seen then
    { a with unread_count := a.unread_count + 1 }
  else a

/-- One iteration of the grouping loop body for a room entry: the three
blocks in source order (the seeding record also runs through the body,
as in the source). -/
def roomStep (a : RoomAccum) (c : Communication) : RoomAccum :=
  roomStepUnread (roomStepName (roomStepStatus a c) c) c

/-- Lookup in an association list with `Str` keys (the model of the
Python dict `room_map`, which preserves insertion order). -/
def findAssoc (k : Str) : List (Str × RoomAccum) → Option RoomAccum
  | [] => none
  | (k', v) :: rest => if k' = k then some v else findAssoc k rest

/-- In-place update of the first entry with the given key. -/
def setAssoc (k : Str) (v : RoomAccum) : List (Str × RoomAccum) → List (Str × RoomAccum)
  | [] => []
  | (k', v') :: rest => if k' = k then (k', v) :: rest else (k', v') :: setAssoc k v rest

/-- One iteration of the grouping loop over `all_comms`: update the
existing room entry or append a fresh one (the seeding record also runs
through the loop body, as in the source). -/
def groupStep (m : List (Str × RoomAccum)) (c : Communication) : List (Str × RoomAccum) :=
  match findAssoc (comm_room_id c) m with
  | some a => setAssoc (comm_room_id c) (roomStep a c) m
  | none => m ++ [(comm_room_id c, roomStep (initAccum c) c)]

/-- The whole grouping loop of `get_rooms`: fold the date-descending
communication list into the insertion-ordered room map. -/
def groupRooms (l : List Communication) : List (Str × RoomAccum) :=
  l.foldl groupStep []

/-- Derived room object, restricted to the fields the claims mention
(`roomId`, `unreadCount`, the sort index, `hasUnreplied`).  The
display-enrichment fields of `build_room_from_thread` in `helpers.py`
(room name, avatar, users list, last-message preview) only read Contact
and User rows for presentation and are omitted from the embedding. -/
structure Room where
  roomId : Str
  unreadCount : Nat
  index : Nat
  hasUnreplied : Bool
  deriving DecidableEq, Repr

/-- Embedding of `build_room_from_thread` from `helpers.py` restricted
to the retained fields: `roomId = f"{medium}:{identifier}"`, the unread
count, the representative date as sort index, and the unreplied flag. -/
def build_room_from_thread (a : RoomAccum) : Room :=
  { roomId := a.rep.communication_medium ++ ':' :: a.ext_identifier
    unreadCount := a.unread_count
    index := a.rep.communication_date
    hasUnreplied := a.has_unreplied }

/-- Medium filter of the rooms query (`retrieve.py` lines 118 to 119):
applied only when the medium argument is truthy and not `"All"`. -/
def commMatchesMedium (medium : Str) (c : Communication) : Bool :=
  if medium ≠ [] ∧ medium ≠ str "All" then c.communication_medium = medium else true

/-- Search filter of the rooms query (`retrieve.py` lines 121 to 130):
substring match across six columns, modelled with the case-insensitive
containment of the MySQL default collation. -/
def commMatchesSearch (search : Str) (c : Communication) : Bool :=
  if search ≠ [] then
    ciContainsSub search c.subject || ciContainsSub search c.content ||
    ciContainsSub search c.sender || ciContainsSub search c.sender_full_name ||
    ciContainsSub search c.recipients || ciContainsSub search c.phone_no
  else true

/-- Row filter of the rooms base query: communication type plus the two
optional filters. -/
def roomsBaseFilter (medium search : Str) (c : Communication) : Bool :=
  c.communication_type = str "Communication" &&
  commMatchesMedium medium c && commMatchesSearch search c

/-- Date-descending order of the rooms and messages queries.  SQL gives
no tie order; the embedding uses a stable sort, keeping source order on
equal dates. -/
def commDateDesc (a b : Communication) : Prop :=
  b.communication_date ≤ a.communication_date

instance : DecidableRel commDateDesc := fun a b =>
  inferInstanceAs (Decidable (b.communication_date ≤ a.communication_date))

/-- Sort rank of a room: unreplied rooms first (`retrieve.py` lines 182
to 195). -/
def roomRank (r : Room) : Nat := if r.hasUnreplied then 0 else 1

/-- Room order implemented by the sort key `(has_unreplied, -ts)`:
rank ascending, then date descending. -/
def roomOrderLE (a b : Room) : Prop :=
  roomRank a < roomRank b ∨ (roomRank a = roomRank b ∧ b.index ≤ a.index)

instance : DecidableRel roomOrderLE := fun a b =>
  inferInstanceAs (Decidable (roomRank a < roomRank b ∨ (roomRank a = roomRank b ∧ b.index ≤ a.index)))

/-- Result shape of `get_rooms`. -/
structure RoomsResponse where
  rooms : List Room
  total : Nat
  page : Nat
  hasMore : Bool
  deriving DecidableEq, Repr

/-- Embedding of `get_rooms` from `retrieve.py`: fetch the filtered
communications ordered by date descending, group them into rooms, sort
rooms unreplied-first then most-recent-first, and paginate with
`offset = (page - 1) * limit`.  The `cint(x) or default` argument
normalisation maps 0 to the default. -/
def get_rooms (db : Database) (page limit : Nat) (search medium : Str) : RoomsResponse :=
  let page := if page = 0 then 1 else page
  let limit := if limit = 0 then 20 else limit
  let offset := (page - 1) * limit
  let all_comms := List.insertionSort commDateDesc (db.comms.filter (roomsBaseFilter medium search))
  let all_rooms := (groupRooms all_comms).map (fun p => build_room_from_thread p.2)
  let sorted := List.insertionSort roomOrderLE all_rooms
  { rooms := (sorted.drop offset).take limit
    total := sorted.length
    page := page
    hasMore := offset + limit < sorted.length }

/-- Embedding of `get_unread_count` from `retrieve.py`: count of
communications with type `Communication`, direction `Received` and
`seen == 0` (the SQL equality does not count NULL `seen`). -/
def get_unread_count (db : Database) : Nat :=
  (db.comms.filter (fun c =>
    c.communication_type = str "Communication" &&
    c.sent_or_received = str "Received" && c.seen = some 0)).length

/-- Status list of the received records of a thread, in processing
order. -/
def recvStatuses (l : List Communication) : List Str :=
  (l.filter (fun c => c.sent_or_received = str "Received")).map Communication.status

/-- Specification of the unreplied flag in terms of the received status
sequence: it holds exactly when there is a received record and the first
one (the most recent, in descending processing order) has a status other
than Replied and Closed. -/
def flagSpec : List Str → Bool
  | [] => false
  | s :: _ => !(s = str "Replied" || s = str "Closed")

/-- Invariant of the per-room accumulator relative to the received
statuses processed so far: the unreplied flag agrees with `flagSpec`,
and the tracked last-received-status is falsy exactly while every
processed received status was the empty string. -/
def RoomInv (a : RoomAccum) (rs : List Str) : Prop :=
  a.has_unreplied = flagSpec rs ∧
    lrsFalsy a.last_received_status = rs.all List.isEmpty

instance : Inhabited Communication :=
  ⟨⟨[], [], [], [], [], [], [], [], [], [], [], 0, none, [], [], [], [], [], [], [], false⟩⟩

instance : Inhabited RoomAccum := ⟨⟨default, 0, [], [], false, none⟩⟩

/-- Per-room state after folding a whole thread, seeded by its first
record (the map entry built by the grouping loop for that key). -/
def roomOf : List Communication → Option RoomAccum
  | [] => none
  | c :: rest => some (rest.foldl roomStep (roomStep (initAccum c) c))

instance : IsTotal Communication commDateDesc :=
  ⟨fun a b => (Nat.le_total b.communication_date a.communication_date).elim Or.inl Or.inr⟩

instance : IsTrans Communication commDateDesc :=
  ⟨fun _ _ _ hab hbc => le_trans hbc hab⟩

instance : IsTotal Room roomOrderLE :=
  ⟨by intro a b; unfold roomOrderLE; omega⟩

instance : IsTrans Room roomOrderLE :=
  ⟨by intro a b c; unfold roomOrderLE; omega⟩

/-- Default-valued communication used to write concrete states
compactly; every scenario overrides the fields it cares about. -/
def baseComm : Communication :=
  { name := []
    communication_type := str "Communication"
    communication_medium := str "SMS"
    sent_or_received := str "Received"
    sender := []
    sender_full_name := []
    recipients := []
    phone_no := []
    subject := []
    content := []
    text_content := []
    communication_date := 0
    seen := some 1
    status := str "Open"
    delivery_status := []
    message_id := []
    in_reply_to := []
    reference_doctype := []
    reference_name := []
    user := []
    has_attachment := false }

/-- Scenario state for the room sort: room A (phone ...01) is older but
unreplied (last received status Open), room B (phone ...02) is newer but
replied. -/
def roomSortScenarioDb : Database :=
  { comms :=
      [ { baseComm with
            name := str "A1", phone_no := str "+15550000001",
            communication_date := 100, status := str "Open" }
      , { baseComm with
            name := str "B1", phone_no := str "+15550000002",
            communication_date := 200, status := str "Replied" } ]
    users := []
    files := [] }

/-- Records of one room thread, as filtered from the stored
communications: the rows the rooms query returns whose room key is the
given room id. -/
def roomThread (db : Database) (search medium : Str) (rid : Str) : List Communication :=
  (db.comms.filter (roomsBaseFilter medium search)).filter
    (fun c => comm_room_id c = rid)

/-- Received records of one room thread. -/
def roomReceived (db : Database) (search medium : Str) (rid : Str) : List Communication :=
  (roomThread db search medium rid).filter
    (fun c => c.sent_or_received = str "Received")

/-- Witness state for C2: one SMS room whose most recent received record
is Replied while an older received record is still Open. -/
def c2WitnessDb : Database :=
  { comms :=
      [ { baseComm with
            name := str "W1", phone_no := str "+15550000003",
            communication_date := 100, status := str "Open" }
      , { baseComm with
            name := str "W2", phone_no := str "+15550000003",
            communication_date := 200, status := str "Replied" } ]
    users := []
    files := [] }

/-- Total unread count of an accumulated room map. -/
def sumUnread (m : List (Str × RoomAccum)) : Nat :=
  (m.map (fun p => p.2.unread_count)).sum

/-- Number of unseen received records of a list (the records counted by
the per-room unread counters). -/
def countUnreadRecv (L : List Communication) : Nat :=
  (L.filter (fun c =>
    decide (c.sent_or_received = str "Received" ∧ ¬ pyTruthyNat c.seen))).length

/-- Earliest position whose suffix satisfies the predicate: the model of
`re.search` returning `match.start()` for the patterns below (none of
which can match the empty string). -/
def anySuffixPos (p : Str → Bool) : Str → Option Nat
  | [] => none
  | c :: rest => if p (c :: rest) then some 0 else (anySuffixPos p rest).map (· + 1)

/-- Some suffix (including the whole list and the empty one) satisfies
the predicate. -/
def anySuffixB (p : Str → Bool) : Str → Bool
  | [] => p []
  | c :: rest => p (c :: rest) || anySuffixB p rest

/-- Matches `\s+wrote:` at the head of the string (case-insensitive,
greedy whitespace run is safe because `wrote:` starts with a
non-whitespace character). -/
def wsThenWrote (s : Str) : Bool :=
  match s with
  | [] => false
  | c :: rest => pyIsSpace c && ciIsPrefix "wrote:" (rest.dropWhile pyIsSpace)

/-- Match of `formatting.py` pattern 1,
`\s*-{2,3}\s*On\s+.+?\s+wrote:\s*.*` (IGNORECASE, DOTALL), anchored at
the current position. -/
def matchDashesAt (s : Str) : Bool :=
  match s.dropWhile pyIsSpace with
  | '-' :: '-' :: t =>
    let t2 := if t.head? = some '-' then t.tail else t
    let u := t2.dropWhile pyIsSpace
    ciIsPrefix "on" u &&
      (match u.drop 2 with
       | [] => false
       | zc :: zrest => pyIsSpace zc && anySuffixB wsThenWrote (zrest.drop 1))
  | _ => false

def weekdayNames : List String := ["mon", "tue", "wed", "thu", "fri", "sat", "sun"]

def monthNames : List String :=
  ["jan", "feb", "mar", "apr", "may", "jun", "jul", "aug", "sep", "oct", "nov", "dec"]

def isAsciiLetter (c : Char) : Bool := c.isAlpha

/-- Matches `[^<]*?wrote:` (IGNORECASE, the lazy any-but-lt run) at the
head of the string. -/
def noLtThenWrote : Str → Bool
  | [] => false
  | c :: rest =>
    if ciIsPrefix "wrote:" (c :: rest) then true
    else if c = '<' then false
    else noLtThenWrote rest

/-- Consume a case-insensitive month name, `MONTH[a-z]*`, returning the
rest. -/
def matchMonthToken (u : Str) : Option Str :=
  if monthNames.any (fun mn => ciIsPrefix mn u) then
    some ((u.drop 3).dropWhile isAsciiLetter)
  else none

/-- Consume at most two digits, the greedy `\d{1,2}`. -/
def dropOneOrTwoDigits : Str → Option Str
  | [] => none
  | d1 :: r1 =>
    if d1.isDigit then
      some (match r1 with
        | d2 :: rr => if d2.isDigit then rr else d2 :: rr
        | [] => [])
    else none

/-- First date alternative of pattern 2: `MONTH[a-z]*\.?\s+\d{1,2}`. -/
def dateAltA (u : Str) : Option Str :=
  match matchMonthToken u with
  | none => none
  | some v1 =>
    let v2 := if v1.head? = some '.' then v1.tail else v1
    match v2 with
    | c :: rest =>
      if pyIsSpace c then dropOneOrTwoDigits (rest.dropWhile pyIsSpace) else none
    | [] => none

/-- Second date alternative of pattern 2:
`\d{1,2}(?:st|nd|rd|th)?\s+MONTH[a-z]*`. -/
def dateAltB (u : Str) : Option Str :=
  match dropOneOrTwoDigits u with
  | none => none
  | some r2 =>
    let r3 := if ["st", "nd", "rd", "th"].any (fun o => ciIsPrefix o r2) then r2.drop 2 else r2
    match r3 with
    | c :: rest =>
      if pyIsSpace c then matchMonthToken (rest.dropWhile pyIsSpace) else none
    | [] => none

/-- Optional weekday group of pattern 2:
`(?:Mon|Tue|Wed|Thu|Fri|Sat|Sun)[a-z]*[,]?\s+`. -/
def afterWeekday (u : Str) : Option Str :=
  if weekdayNames.any (fun w => ciIsPrefix w u) then
    let v1 := (u.drop 3).dropWhile isAsciiLetter
    let v2 := if v1.head? = some ',' then v1.tail else v1
    match v2 with
    | c :: rest => if pyIsSpace c then some (rest.dropWhile pyIsSpace) else none
    | [] => none
  else none

/-- Match of `formatting.py` pattern 2 (`On <date>, ... wrote:` with an
optional weekday and two date orders), anchored at the current
position. -/
def matchOnWroteAt (s : Str) : Bool :=
  ciIsPrefix "on" s &&
    (match s.drop 2 with
     | [] => false
     | c :: rest =>
       pyIsSpace c &&
         (let u := rest.dropWhile pyIsSpace
          let tryDate : Str → Bool := fun w =>
            match dateAltA w with
            | some v => noLtThenWrote v
            | none =>
              match dateAltB w with
              | some v => noLtThenWrote v
              | none => false
          tryDate u ||
            (match afterWeekday u with
             | some u2 => tryDate u2
             | none => false)))

/-- Matches `[^w]{0,100}wrote:` (IGNORECASE) with a fuel bound of 100
characters. -/
def noWThenWrote : Nat → Str → Bool
  | _, [] => false
  | fuel, c :: rest =>
    if ciIsPrefix "wrote:" (c :: rest) then true
    else
      match fuel with
      | 0 => false
      | fuel' + 1 => if c.toLower = 'w' then false else noWThenWrote fuel' rest

/-- Match of `formatting.py` pattern 3,
`On\s+[A-Za-z]{3}[^w]{0,100}wrote:\s*`, anchored at the current
position. -/
def matchOnWroteSimpleAt (s : Str) : Bool :=
  ciIsPrefix "on" s &&
    (match s.drop 2 with
     | [] => false
     | c :: rest =>
       pyIsSpace c &&
         (let u := rest.dropWhile pyIsSpace
          decide ((u.take 3).length = 3) && (u.take 3).all isAsciiLetter &&
            noWThenWrote 100 (u.drop 3)))

/-- Truncate the content at the earliest match of a pattern and strip,
the `content[: match.start()].strip()` idiom of `formatting.py`. -/
def truncateAtMatch (p : Str → Bool) (s : Str) : Str :=
  match anySuffixPos p s with
  | some i => pyStrip (s.take i)
  | none => s

/-- Pattern 4 of `formatting.py`: drop trailing lines whose stripped
form starts with `>`. -/
def dropTrailingQuoted (ls : List Str) : List Str :=
  (ls.reverse.dropWhile (fun line => (pyStrip line).head? = some '>')).reverse

def applyTrailingQuoted (s : Str) : Str :=
  pyStrip (List.intercalate ['\n'] (dropTrailingQuoted (pySplitChar '\n' s)))

/-- Body requirement of the Outlook `^\s*From:\s+.+$` line after the
literal `From:`: a whitespace run followed by a character other than a
newline. -/
def fromExistsBody (s : Str) : Bool :=
  match s with
  | [] => false
  | c :: rest => pyIsSpace c && !(rest.dropWhile (fun d => d = '\n')).isEmpty

def matchFromLineAt (s : Str) : Bool :=
  ciIsPrefix "from:" (s.dropWhile pyIsSpace) &&
    fromExistsBody ((s.dropWhile pyIsSpace).drop 5)

/-- The `^Sent:\s+` header line of the Outlook block. -/
def sentHeaderAt (s : Str) : Bool :=
  ciIsPrefix "sent:" s &&
    (match s.drop 5 with
     | c :: _ => pyIsSpace c
     | [] => false)

/-- Earliest line-start position whose suffix satisfies the predicate:
the model of a MULTILINE `^`-anchored `re.search`. -/
def findLineStartPosAux (p : Str → Bool) : Bool → Str → Option Nat
  | atStart, [] => if atStart && p [] then some 0 else none
  | atStart, c :: rest =>
    if atStart && p (c :: rest) then some 0
    else (findLineStartPosAux p (c = '\n') rest).map (· + 1)

/-- Pattern 5 of `formatting.py`: truncate at an Outlook-style header
block (a `From:` line later followed by a `Sent:` line). -/
def applyOutlook (s : Str) : Str :=
  match findLineStartPosAux matchFromLineAt true s with
  | some i =>
    if (findLineStartPosAux sentHeaderAt true (s.drop i)).isSome then
      pyStrip (s.take i)
    else s
  | none => s

/-- Pattern 6 of `formatting.py`: remove BOM and zero-width characters,
strip line ends, drop trailing blank lines. -/
def cleanupArtifacts (s : Str) : Str :=
  let s1 := s.filter (fun c => c ≠ '\uFEFF' ∧ c ≠ '\u200B')
  let lines := (pySplitChar '\n' s1).map pyRstrip
  let lines2 := (lines.reverse.dropWhile List.isEmpty).reverse
  List.intercalate ['\n'] lines2

/-- Pattern 7 of `formatting.py`: drop an unsubscribe-style footer and
strip. -/
def leaveConvAt (s : Str) : Bool :=
  ciIsPrefix "leave this conversation" (s.dropWhile pyIsSpace)

def applyLeaveConv (s : Str) : Str :=
  match anySuffixPos leaveConvAt s with
  | some i => pyStrip (s.take i)
  | none => pyStrip s

/-- Pattern 8 of `formatting.py`: the `^--\s*$` signature separator
line. -/
def wsStarEol : Str → Bool
  | [] => true
  | c :: rest => if c = '\n' then true else if pyIsSpace c then wsStarEol rest else false

def sigSepLineAt (s : Str) : Bool :=
  match s with
  | '-' :: '-' :: rest => wsStarEol rest
  | _ => false

def applySignature (s : Str) : Str :=
  match findLineStartPosAux sigSepLineAt true s with
  | some i => pyStrip (s.take i)
  | none => s

/-- Embedding of `strip_quoted_replies` from `formatting.py`.  The
external `EmailReplyParser.parse_reply` call is modelled by the
`erpResult` argument: `some parsed` is a returned string, `none` a
raised exception (swallowed by the source); the source keeps the
stripped parse when it is nonempty and otherwise continues with the
original content, then applies the eight in-house patterns in order. -/
def strip_quoted_replies (erpResult : Option Str) (content : Str) : Str :=
  if content = [] then content
  else
    let c0 :=
      match erpResult with
      | some parsed => if parsed ≠ [] ∧ pyStrip parsed ≠ [] then pyStrip parsed else content
      | none => content
    let c1 := truncateAtMatch matchDashesAt c0
    let c2 := truncateAtMatch matchOnWroteAt c1
    let c3 := truncateAtMatch matchOnWroteSimpleAt c2
    let c4 := applyTrailingQuoted c3
    let c5 := applyOutlook c4
    let c6 := cleanupArtifacts c5
    let c7 := applyLeaveConv c6
    applySignature c7

set_option maxRecDepth 100000

/-- Restricted functional model of the external `phonenumbers` library,
covering the North American numbering plan numbers exercised by the
code: a parse keeps the country calling code and the national digit
string; formatting punctuation is ignored; `none` models a raised
`NumberParseException`.  Numbers outside the modelled shape (country
code 1, ten national digits, optionally written with a leading 1) are
out of the model. -/
structure PhoneNumberObj where
  countryCode : Nat
  nationalNumber : Str
  deriving DecidableEq, Repr

def phonenumbers_parse (number : Str) (region : Str) : Option PhoneNumberObj :=
  let clean := number.filter (fun c => c.isDigit || c = '+')
  match clean with
  | '+' :: digits =>
    if digits.all Char.isDigit then
      match digits with
      | '1' :: national => if national.length = 10 then some ⟨1, national⟩ else none
      | _ => none
    else none
  | digits =>
    if region = str "US" ∧ digits ≠ [] ∧ digits.all Char.isDigit then
      match digits with
      | '1' :: national =>
        if national.length = 10 then some ⟨1, national⟩ else some ⟨1, digits⟩
      | _ => some ⟨1, digits⟩
    else none

/-- Model of `phonenumbers.is_valid_number` for country code 1: ten
national digits whose area code and exchange both start with a digit
from 2 to 9. -/
def phonenumbers_is_valid (p : PhoneNumberObj) : Bool :=
  decide (p.countryCode = 1) && decide (p.nationalNumber.length = 10) &&
    (match p.nationalNumber with
     | a :: _ :: _ :: e :: _ => ('2' ≤ a && a ≤ '9') && ('2' ≤ e && e ≤ '9')
     | _ => false)

/-- Model of `phonenumbers.format_number(..., E164)` for country
code 1. -/
def phonenumbers_format_e164 (p : PhoneNumberObj) : Str :=
  '+' :: '1' :: p.nationalNumber

/-- Embedding of `is_valid_e164_number` from `custom/contact.py`: a
number not starting with `+` is rejected, then the parse must succeed,
be valid, and format back to exactly the input. -/
def is_valid_e164_number (number : Str) : Bool :=
  if ¬ (number.head? = some '+') then false
  else
    match phonenumbers_parse number [] with
    | none => false
    | some numobj =>
      if phonenumbers_is_valid numobj then
        phonenumbers_format_e164 numobj = number
      else false

/-- Embedding of `convert_to_e164` from `custom/contact.py`: falsy input
gives None, then parse with the region, validate, and format. -/
def convert_to_e164 (number : Option Str) (country_code : Str) : Option Str :=
  match number with
  | none => none
  | some n =>
    if n = [] then none
    else
      match phonenumbers_parse n country_code with
      | none => none
      | some numobj =>
        if phonenumbers_is_valid numobj then some (phonenumbers_format_e164 numobj)
        else none

/-- Python `x or y` for strings: the first truthy (nonempty) one. -/
def pyOr (a b : Str) : Str := if a ≠ [] then a else b

/-- One-pass tag remover, the model of the frappe `strip_html_tags`
utility (`re`-based removal of `<...>` segments); an unclosed trailing
tag is dropped with its rest, a harmless divergence for the well-formed
HTML this code handles. -/
def stripTagsAux : Bool → Str → Str
  | _, [] => []
  | true, c :: rest => if c = '>' then stripTagsAux false rest else stripTagsAux true rest
  | false, c :: rest =>
    if c = '<' then stripTagsAux true rest else c :: stripTagsAux false rest

def strip_html_tags (s : Str) : Str := stripTagsAux false s

/-- Attachment metadata of a message.  The embedding keeps name, type,
extension and size; the absolute URL built from `get_url()` is a
site-configuration string and is omitted. -/
structure MessageFile where
  name : Str
  fileType : Str
  extension : Str
  size : Nat
  deriving DecidableEq, Repr

/-- Embedded reply preview (`replyMessage` of a built message). -/
structure ReplyPreview where
  id : Str
  content : Str
  senderId : Str
  deriving DecidableEq, Repr

/-- Display message built by `get_messages`.  Retained fields are the
ones the claims and the pagination touch; the `avatar` URL and the
`strftime`-rendered date and time strings are presentation-only
formatting of `communication_date` and are omitted (the raw date is kept
instead), as are the constant fields (`system`, `saved`, `deleted`,
`edited`, `disableActions`, `disableReactions`). -/
structure Message where
  id : Str
  senderId : Str
  indexId : Nat
  content : Str
  username : Str
  dateValue : Nat
  seen : Bool
  distributed : Bool
  failure : Bool
  files : List MessageFile
  communicationName : Str
  communicationMedium : Str
  sentOrReceived : Str
  subject : Str
  referenceDoctype : Str
  referenceName : Str
  replyMessage : Option ReplyPreview
  deriving DecidableEq, Repr

/-- Row filter shared by the messages query of `get_messages`
(`retrieve.py` lines 240 to 274) and the latest-in-thread query of
`send_message` (`send.py` lines 154 to 176): type Communication, the
room medium, and the identifier match (phone equality for SMS/Phone,
sender equality or recipients containment otherwise). -/
def threadFilter (medium identifier : Str) (c : Communication) : Bool :=
  decide (c.communication_type = str "Communication") &&
  decide (c.communication_medium = medium) &&
  (if medium = str "SMS" ∨ medium = str "Phone" then decide (c.phone_no = identifier)
   else (decide (c.sender = identifier) || ciContainsSub identifier c.recipients))

/-- Date-ascending order of the messages query (stable, ties keep
source order). -/
def commDateAsc (a b : Communication) : Prop :=
  a.communication_date ≤ b.communication_date

instance : DecidableRel commDateAsc := fun a b =>
  inferInstanceAs (Decidable (a.communication_date ≤ b.communication_date))

instance : IsTotal Communication commDateAsc :=
  ⟨fun a b => Nat.le_total a.communication_date b.communication_date⟩

instance : IsTrans Communication commDateAsc :=
  ⟨fun _ _ _ hab hbc => le_trans hab hbc⟩

/-- Embedding of `get_user_display_name` inside `get_messages`: the User
full name when set, else the raw account id (the per-request cache has
no observable effect). -/
def get_user_display_name (db : Database) (user_email : Str) : Str :=
  if user_email = [] then []
  else
    match db.users.find? (fun u => u.name = user_email) with
    | some u => pyOr u.full_name user_email
    | none => user_email

/-- Embedding of the message-building loop body of `get_messages`
(`retrieve.py` lines 310 to 442) for one communication at one index. -/
def buildMessage (db : Database) (erp : Str → Option Str)
    (current_user medium identifier : Str) (idx : Nat) (c : Communication) : Message :=
  let sender_id :=
    if c.sent_or_received = str "Sent" then
      pyOr c.user (pyOr c.sender (pyOr current_user []))
    else if medium = str "SMS" ∨ medium = str "Phone" then
      pyOr c.phone_no (pyOr identifier [])
    else
      pyOr c.sender (pyOr identifier [])
  let files :=
    if c.has_attachment then
      (db.files.filter (fun f =>
        f.attached_to_doctype = str "Communication" && f.attached_to_name = c.name)).map
        (fun f =>
          { name := f.file_name
            fileType := pyOr f.file_type (str "application/octet-stream")
            extension := pyLower ((pySplitChar '.' (pyOr f.file_name [])).getLastD [])
            size := f.file_size } : FileDoc → MessageFile)
    else []
  let raw0 := pyOr c.text_content c.content
  let raw1 :=
    if raw0.contains '<' && raw0.contains '>' then strip_html_tags raw0 else raw0
  let raw2 := strip_quoted_replies (erp raw1) raw1
  let content :=
    if medium = str "Email" ∧ c.subject ≠ [] then
      str "**" ++ c.subject ++ str "**" ++ str "\n\n" ++ raw2
    else raw2
  let reply :=
    if c.in_reply_to ≠ [] then
      match db.comms.find? (fun r => r.message_id = c.in_reply_to) with
      | some r =>
        let rc0 := pyOr r.text_content r.content
        let rc := if rc0.contains '<' && rc0.contains '>' then strip_html_tags rc0 else rc0
        let rsender :=
          if r.sender ≠ [] then r.sender
          else if r.sent_or_received = str "Received" then pyOr identifier []
          else current_user
        some ({ id := r.name, content := rc.take 200, senderId := rsender } : ReplyPreview)
      | none => none
    else none
  let username :=
    if c.sent_or_received = str "Sent" then get_user_display_name db sender_id
    else pyOr c.sender_full_name sender_id
  { id := c.name
    senderId := sender_id
    indexId := idx
    content := content
    username := username
    dateValue := c.communication_date
    seen := pyTruthyNat c.seen
    distributed := c.delivery_status = str "Sent" ∨ c.delivery_status = str "Opened" ∨
      c.delivery_status = str "Read"
    failure := c.delivery_status = str "Bounced" ∨ c.delivery_status = str "Error" ∨
      c.delivery_status = str "Rejected"
    files := files
    communicationName := c.name
    communicationMedium := c.communication_medium
    sentOrReceived := c.sent_or_received
    subject := c.subject
    referenceDoctype := c.reference_doctype
    referenceName := c.reference_name
    replyMessage := reply }

/-- The full oldest-first built message list of one room thread. -/
def builtThread (db : Database) (erp : Str → Option Str)
    (current_user medium identifier : Str) : List Message :=
  (List.insertionSort commDateAsc (db.comms.filter (threadFilter medium identifier))).mapIdx
    (fun idx c => buildMessage db erp current_user medium identifier idx c)

/-- Python slice index normalisation: a negative index counts from the
end, and indices clamp to the list bounds. -/
def pySliceIdx (n : Nat) (i : Int) : Nat :=
  if i < 0 then (max 0 ((n : Int) + i)).toNat else (min i (n : Int)).toNat

/-- Python list slice `l[a:b]` with full Python semantics for possibly
negative bounds. -/
def pySliceInt {α : Type} (l : List α) (a b : Int) : List α :=
  (l.take (pySliceIdx l.length b)).drop (pySliceIdx l.length a)

/-- Result shape of `get_messages`. -/
structure MessagesResponse where
  messages : List Message
  total : Nat
  page : Nat
  hasMore : Bool
  deriving DecidableEq, Repr

/-- Embedding of `get_messages` from `retrieve.py`: parse the room id
(soft failure on a malformed one), fetch and build the thread oldest
first, then apply the tail-based window `messages[start:end]` with
`start = max(0, N - page*limit)`, `end = N - (page-1)*limit` and
`hasMore = start > 0`. -/
def get_messages (db : Database) (erp : Str → Option Str) (current_user : Str)
    (room_id : Str) (page limit : Nat) : MessagesResponse :=
  let page := if page = 0 then 1 else page
  let limit := if limit = 0 then 50 else limit
  let parts := parse_room_id room_id
  let medium := parts.medium.getD []
  let identifier := parts.identifier.getD []
  if medium = [] ∨ identifier = [] then
    { messages := [], total := 0, page := page, hasMore := false }
  else
    let msgs := builtThread db erp current_user medium identifier
    let total := (db.comms.filter (threadFilter medium identifier)).length
    let start_idx : Int := max 0 ((msgs.length : Int) - (page : Int) * (limit : Int))
    let end_idx : Int := (msgs.length : Int) - ((page : Int) - 1) * (limit : Int)
    { messages := pySliceInt msgs start_idx end_idx
      total := total
      page := page
      hasMore := decide (0 < start_idx) }

/-- Fuelled scanning replacement: wherever the matcher consumes a
prefix, emit the replacement and continue after it; the fuel (one unit
per input character) makes the recursion structural, and a fuel of the
input length always suffices because every step consumes at least one
character. -/
def replaceScan (m : Str → Option Str) (rep : Str) : Nat → Str → Str
  | _, [] => []
  | 0, s => s
  | fuel + 1, c :: rest =>
    match m (c :: rest) with
    | some rr => rep ++ replaceScan m rep fuel rr
    | none => c :: replaceScan m rep fuel rest

/-- Matcher for `<br\s*/?>` (IGNORECASE). -/
def matchBrTag : Str → Option Str
  | '<' :: b :: r :: rest =>
    if b.toLower = 'b' ∧ r.toLower = 'r' then
      let rest1 := rest.dropWhile pyIsSpace
      let rest2 := if rest1.head? = some '/' then rest1.tail else rest1
      match rest2 with
      | '>' :: rr => some rr
      | _ => none
    else none
  | _ => none

/-- Matcher for a case-insensitive literal. -/
def matchCiLit (pat : String) (s : Str) : Option Str :=
  if ciIsPrefix pat s then some (s.drop (str pat).length) else none

/-- Rest after the first `>`. -/
def afterClose : Str → Option Str
  | [] => none
  | '>' :: rest => some rest
  | _ :: rest => afterClose rest

/-- Matcher for `<[^>]+>`: an angle tag with at least one character
inside. -/
def matchAngleTag : Str → Option Str
  | '<' :: c :: rest => if c = '>' then none else afterClose (c :: rest)
  | _ => none

/-- Collapse every run of three or more newlines to exactly two, the
`re.sub(r"\n{3,}", "\n\n", ...)` of `formatting.py`; the counter holds
the number of newlines already emitted in the current run. -/
def collapseNlAux : Nat → Str → Str
  | _, [] => []
  | nlrun, c :: rest =>
    if c = '\n' then
      if nlrun ≥ 2 then collapseNlAux (nlrun + 1) rest
      else '\n' :: collapseNlAux (nlrun + 1) rest
    else c :: collapseNlAux 0 rest

def collapseNewlines (s : Str) : Str := collapseNlAux 0 s

/-- Embedding of `html_to_plain_text` from `formatting.py`: break tags
and block closings become newlines, remaining tags are removed, long
newline runs collapse, and the result is stripped. -/
def html_to_plain_text (html_content : Str) : Str :=
  if html_content = [] then []
  else
    let t1 := replaceScan matchBrTag (str "\n") html_content.length html_content
    let t2 := replaceScan (matchCiLit "</p>") (str "\n") t1.length t1
    let t3 := replaceScan (matchCiLit "</div>") (str "\n") t2.length t2
    let t4 := replaceScan matchAngleTag [] t3.length t3
    pyStrip (collapseNewlines t4)

/-- Embedding of `plain_text_to_html` from `formatting.py`: newlines
become `<br>` followed by a newline. -/
def plain_text_to_html (text : Str) : Str :=
  if text = [] then []
  else
    text.foldr
      (fun c acc => if c = '\n' then '<' :: 'b' :: 'r' :: '>' :: '\n' :: acc else c :: acc) []

/-- Embedding of `build_quoted_reply` from `formatting.py`: strip HTML
from the quoted content, prefix every line with `"> "`, and append the
`On {date}, {sender} wrote:` block after the new content. -/
def build_quoted_reply (content reply_content reply_sender reply_date_str : Str) : Str :=
  let quoted_text :=
    if reply_content.contains '<' && reply_content.contains '>' then
      html_to_plain_text reply_content
    else reply_content
  let quoted_block :=
    List.intercalate ['\n'] ((pySplitChar '\n' quoted_text).map (fun line => str "> " ++ line))
  content ++ str "\n\nOn " ++ reply_date_str ++ str ", " ++ reply_sender ++
    str " wrote:\n" ++ quoted_block

/-- Embedding of `get_user_email_signature` from `send.py`: the custom
signature (HTML-stripped, stripped) when set, otherwise a default
`--\nFull Name` signature; missing user rows give the empty string. -/
def get_user_email_signature (db : Database) (user : Str) : Str :=
  if user = [] then []
  else
    match db.users.find? (fun u => u.name = user) with
    | none => []
    | some u =>
      if u.email_signature ≠ [] then
        pyStrip
          (if u.email_signature.contains '<' && u.email_signature.contains '>' then
            html_to_plain_text u.email_signature
          else u.email_signature)
      else str "--" ++ str "\n" ++ pyOr u.full_name user

/-- Environment of one `send_message` call: the document store, the
session, and the external collaborators.  Fallible collaborators are
oracles: `insertFail` models the frappe insert raising (the one
persistence step inside the try block), `smsSendFail` and
`emailSendFail` model the transports raising (both are caught inside
the helpers, which then mark `delivery_status` Error).  `freshName` is
the document name the store assigns on insert, `now` the assigned
communication date, `newMessageId` the already-bracket-stripped
`get_message_id()` value, and `fmtDate` the `strftime` rendering of a
quoted reply date. -/
structure SendEnv where
  db : Database
  sessionUser : Str
  now : Nat
  freshName : Str
  newMessageId : Str
  insertFail : Option Str
  smsSendFail : Option Str
  emailSendFail : Option Str
  fmtDate : Nat → Str

/-- Reply context gathered by `send_message` (`send.py` lines 119 to
199): the effective reply id, the original subject and quote fields,
and the name of the received record to mark Replied afterwards. -/
structure ReplyCtx where
  reply_message_id : Str
  original_subject : Str
  reply_content_for_quote : Str
  reply_sender_for_quote : Str
  reply_date_for_quote : Option Nat
  latest_received_name : Option Str
  deriving DecidableEq, Repr

/-- Builds the reply context: an explicit `reply_message_id` is looked
up by document name; otherwise the most recent record of the thread
(optionally narrowed by the reference link) threads automatically. -/
def sendReplyContext (db : Database) (reply_message_id medium identifier ref_dt ref_name : Str) :
    ReplyCtx :=
  if reply_message_id ≠ [] then
    match db.comms.find? (fun r => r.name = reply_message_id) with
    | some r =>
      { reply_message_id := reply_message_id
        original_subject := r.subject
        reply_content_for_quote := pyOr r.text_content r.content
        reply_sender_for_quote := pyOr r.sender_full_name r.sender
        reply_date_for_quote := some r.communication_date
        latest_received_name :=
          if r.sent_or_received = str "Received" then some r.name else none }
    | none =>
      { reply_message_id := reply_message_id
        original_subject := []
        reply_content_for_quote := []
        reply_sender_for_quote := []
        reply_date_for_quote := none
        latest_received_name := none }
  else
    let cands := db.comms.filter (fun c =>
      threadFilter medium identifier c &&
        (if ref_dt ≠ [] ∧ ref_name ≠ [] then
          decide (c.reference_doctype = ref_dt) && decide (c.reference_name = ref_name)
        else true))
    match (List.insertionSort commDateDesc cands).head? with
    | some r =>
      { reply_message_id := r.name
        original_subject := r.subject
        reply_content_for_quote := pyOr r.text_content r.content
        reply_sender_for_quote := pyOr r.sender_full_name r.sender
        reply_date_for_quote := some r.communication_date
        latest_received_name :=
          if r.sent_or_received = str "Received" then some r.name else none }
    | none =>
      { reply_message_id := []
        original_subject := []
        reply_content_for_quote := []
        reply_sender_for_quote := []
        reply_date_for_quote := none
        latest_received_name := none }

/-- Subject auto-generation of `send_message` (`send.py` lines 201 to
212): reuse the original subject with an idempotent `Re: ` prefix for
email, else `Message to {identifier}`. -/
def autoSubject (subject medium identifier original_subject : Str) : Str :=
  if subject ≠ [] then subject
  else if medium = str "Email" then
    if original_subject ≠ [] then
      if List.isPrefixOf (str "re:") (pyLower original_subject) then original_subject
      else str "Re: " ++ original_subject
    else str "Message to " ++ identifier
  else str "Message to " ++ identifier

/-- Embedding of `_send_sms` from `send.py`: insert the Sent SMS
Communication (with `in_reply_to` set to the given reply id), then hand
off to the SMS transport; a transport failure is caught and recorded as
delivery status Error, a successful handoff as Sent.  The `status`
field takes the frappe default Open for a fresh Communication. -/
def sendSms (env : SendEnv) (content identifier subject ref_dt ref_name reply_message_id : Str) :
    Except Str (Communication × List Communication) :=
  match env.insertFail with
  | some e => Except.error e
  | none =>
    let comm : Communication :=
      { name := env.freshName
        communication_type := str "Communication"
        communication_medium := str "SMS"
        sent_or_received := str "Sent"
        sender := env.sessionUser
        sender_full_name := []
        recipients := identifier
        phone_no := identifier
        subject := subject
        content := content
        text_content := content
        communication_date := env.now
        seen := some 0
        status := str "Open"
        delivery_status :=
          match env.smsSendFail with
          | some _ => str "Error"
          | none => str "Sent"
        message_id := []
        in_reply_to := reply_message_id
        reference_doctype := ref_dt
        reference_name := ref_name
        user := []
        has_attachment := false }
    Except.ok (comm, env.db.comms ++ [comm])

/-- Embedding of `_send_email` from `send.py`: compose the body (content
plus optional signature plus optional quoted reply), insert the Sent
Email Communication with a fresh provider message id, status Linked and
`in_reply_to` set to the given reply id, then hand off to the mail
transport; a transport failure is caught and recorded as delivery
status Error. -/
def sendEmail (env : SendEnv)
    (content identifier subject ref_dt ref_name reply_message_id : Str)
    (reply_content_for_quote reply_sender_for_quote : Str)
    (reply_date_for_quote : Option Nat) (email_signature : Str) :
    Except Str (Communication × List Communication) :=
  match env.insertFail with
  | some e => Except.error e
  | none =>
    let ec1 :=
      if email_signature ≠ [] then content ++ str "\n\n" ++ email_signature else content
    let email_content :=
      if reply_content_for_quote ≠ [] ∧ reply_sender_for_quote ≠ [] then
        let reply_date_str :=
          match reply_date_for_quote with
          | some d => env.fmtDate d
          | none => []
        let quoted :=
          (build_quoted_reply [] reply_content_for_quote reply_sender_for_quote
            reply_date_str).dropWhile (fun c => c = '\n')
        ec1 ++ str "\n\n" ++ quoted
      else ec1
    let html_content := plain_text_to_html email_content
    let comm : Communication :=
      { name := env.freshName
        communication_type := str "Communication"
        communication_medium := str "Email"
        sent_or_received := str "Sent"
        sender := env.sessionUser
        sender_full_name := []
        recipients := identifier
        phone_no := []
        subject := subject
        content := html_content
        text_content := email_content
        communication_date := env.now
        seen := some 0
        status := str "Linked"
        delivery_status :=
          match env.emailSendFail with
          | some _ => str "Error"
          | none => []
        message_id := env.newMessageId
        in_reply_to := reply_message_id
        reference_doctype := ref_dt
        reference_name := ref_name
        user := []
        has_attachment := false }
    Except.ok (comm, env.db.comms ++ [comm])

/-- Point update of one record status, the model of
`frappe.db.set_value("Communication", name, "status", value)`. -/
def setStatus (comms : List Communication) (nm st : Str) : List Communication :=
  comms.map (fun c => if c.name = nm then { c with status := st } else c)

/-- User full name with fallbacks, the `frappe.get_value(...) or
current_user_id or ""` chain of the response building. -/
def userFullnameOr (db : Database) (user : Str) : Str :=
  match db.users.find? (fun u => u.name = user) with
  | some u => pyOr u.full_name (pyOr user [])
  | none => pyOr user []

/-- Response payload of a successful send, restricted to the
substantive fields (the display booleans are constants and the avatar
and rendered times are presentation only, as in the message
embedding). -/
structure SendMessagePayload where
  id : Str
  senderId : Str
  content : Str
  username : Str
  subject : Str
  communicationMedium : Str
  sentOrReceived : Str
  referenceDoctype : Str
  referenceName : Str
  deriving DecidableEq, Repr

/-- Structured result of `send_message`. -/
structure SendMessageResponse where
  success : Bool
  message : Option SendMessagePayload
  error : Option Str
  deriving DecidableEq, Repr

/-- Embedding of `send_message` from `send.py`, returning the response
and the resulting communication store.  A malformed room id fails soft
with the `Invalid room ID` error; the try block is the `Except` layer:
an exception of the fallible persistence step is caught and becomes
`{success := false, error := e}`; a transport exception is already
handled inside the helpers and still yields success.  File attachment
persistence (a loop of side-effect-only File inserts) is outside the
modelled store slice and omitted. -/
def send_message (env : SendEnv) (room_id content reply_message_id subject : Str) :
    SendMessageResponse × List Communication :=
  let parts := parse_room_id room_id
  let medium := parts.medium.getD []
  let identifier := parts.identifier.getD []
  let ref_dt := parts.reference_doctype.getD []
  let ref_name := parts.reference_name.getD []
  if medium = [] ∨ identifier = [] then
    ({ success := false, message := none, error := some (str "Invalid room ID") }, env.db.comms)
  else
    let ctx := sendReplyContext env.db reply_message_id medium identifier ref_dt ref_name
    let subj := autoSubject subject medium identifier ctx.original_subject
    let sent :=
      if medium = str "SMS" then
        sendSms env content identifier subj ref_dt ref_name ctx.reply_message_id
      else
        sendEmail env content identifier subj ref_dt ref_name ctx.reply_message_id
          ctx.reply_content_for_quote ctx.reply_sender_for_quote ctx.reply_date_for_quote
          (get_user_email_signature env.db env.sessionUser)
    match sent with
    | Except.error e =>
      ({ success := false, message := none, error := some e }, env.db.comms)
    | Except.ok (comm, comms1) =>
      let comms2 :=
        match ctx.latest_received_name with
        | some nm => setStatus comms1 nm (str "Replied")
        | none => comms1
      let payload : SendMessagePayload :=
        { id := comm.name
          senderId := env.sessionUser
          content := content
          username := userFullnameOr env.db env.sessionUser
          subject := subj
          communicationMedium := medium
          sentOrReceived := str "Sent"
          referenceDoctype := ref_dt
          referenceName := ref_name }
      ({ success := true, message := some payload, error := none }, comms2)

/-- Concrete received SMS record answered in the C1 scenario: its
document name and its provider message id differ. -/
def c1BugTarget : Communication :=
  { baseComm with
      name := str "CRM-00001", message_id := str "SM123abc",
      phone_no := str "+15551230000", status := str "Open",
      communication_date := 100 }

/-- Environment of the C1 scenario: one received SMS in the store, all
collaborators healthy. -/
def c1BugEnv : SendEnv :=
  { db := { comms := [c1BugTarget], users := [], files := [] }
    sessionUser := str "agent@example.com"
    now := 200
    freshName := str "CRM-00002"
    newMessageId := str "fresh-id@site"
    insertFail := none
    smsSendFail := none
    emailSendFail := none
    fmtDate := fun _ => str "January 1, 2024 at 12:00 PM" }

/-- Environment for the C6 witness: healthy store, deliberately broken
SMS transport. -/
def c6WitnessEnv : SendEnv :=
  { db := { comms := [], users := [], files := [] }
    sessionUser := str "agent@example.com"
    now := 10
    freshName := str "CRM-00010"
    newMessageId := str "id@site"
    insertFail := none
    smsSendFail := some (str "transport down")
    emailSendFail := none
    fmtDate := fun _ => [] }

/-- Witness state for C3: one SMS room with three dated messages. -/
def c3WitnessDb : Database :=
  { comms :=
      [ { baseComm with
            name := str "M1", phone_no := str "+15550000021",
            communication_date := 10 }
      , { baseComm with
            name := str "M2", phone_no := str "+15550000021",
            communication_date := 20 }
      , { baseComm with
            name := str "M3", phone_no := str "+15550000021",
            communication_date := 30 } ]
    users := []
    files := [] }

/-- Witness state for C10: two SMS rooms, one holding an unseen received
record. -/
def c10WitnessDb : Database :=
  { comms :=
      [ { baseComm with
            name := str "U1", phone_no := str "+15550000031",
            communication_date := 10, seen := some 0 }
      , { baseComm with
            name := str "U2", phone_no := str "+15550000032",
            communication_date := 20, seen := some 1 } ]
    users := []
    files := [] }

/-- Contact slice used by the STOP opt-out behaviour: one row per
(contact, phone) link with the unsubscribed flag. -/
structure ContactRec where
  name : Str
  phone : Str
  unsubscribed : Bool
  deriving DecidableEq, Repr

/-- The fixed confirmation text of the STOP opt-out. -/
def stopConfirmationText : Str := str "You have been removed from our broadcast list."

/-- Modelled from the spec: the special inbound STOP behaviour of the
SMS webhook.  The webhook source under src (`twilio_webhook.py`) only
records the inbound Communication; the opt-out branch the specification
describes — when the trimmed, case-folded body equals `"stop"`, flag
every Contact carrying the sending number as unsubscribed and send one
fixed confirmation SMS — is not present anywhere in the source tree, so
it is modelled here from the specification text (spec section 4.4).
The result is the updated contact table and the list of confirmation
Communications created (Sent, medium SMS, fixed content). -/
def handle_inbound_stop (contacts : List ContactRec) (from_number body : Str) :
    List ContactRec × List Communication :=
  if pyLower (pyStrip body) = str "stop" then
    ( contacts.map (fun ct =>
        if ct.phone = from_number then { ct with unsubscribed := true } else ct)
    , [ { baseComm with
          communication_medium := str "SMS"
          sent_or_received := str "Sent"
          phone_no := from_number
          recipients := from_number
          content := stopConfirmationText
          text_content := stopConfirmationText
          seen := some 0
          status := str "Open" } ] )
  else (contacts, [])

/-- Contacts of the C5 witness scenario: two contacts share the sending
number, one does not. -/
def c5Contacts : List ContactRec :=
  [ ⟨str "CT-1", str "+15557770001", false⟩
  , ⟨str "CT-2", str "+15557770001", false⟩
  , ⟨str "CT-3", str "+15557770002", false⟩ ]

/-- Lemma: splitting a string that contains no separator yields the
single field holding the whole string. -/
theorem pySplitChar_no_sep (sep : Char) (l : Str) (h : sep ∉ l) :
    pySplitChar sep l = [l] := by
  induction l with
  | nil => rfl
  | cons c rest ih =>
    have hc : c ≠ sep := fun hcs => h (hcs ▸ List.mem_cons_self c rest)
    have hrest : sep ∉ rest := fun hm => h (List.mem_cons_of_mem c hm)
    simp only [pySplitChar, ih hrest]
    simp [hc]

/-- Lemma: splitting `l ++ sep :: r` when `l` has no separator puts `l`
in front of the fields of `r`. -/
theorem pySplitChar_append (sep : Char) (l r : Str) (h : sep ∉ l) :
    pySplitChar sep (l ++ sep :: r) = l :: pySplitChar sep r := by
  induction l with
  | nil =>
    simp only [List.nil_append, pySplitChar]
    match hr : pySplitChar sep r with
    | [] => simp [hr]
    | s :: ss => simp [hr]
  | cons c rest ih =>
    have hc : c ≠ sep := fun hcs => h (hcs ▸ List.mem_cons_self c rest)
    have hrest : sep ∉ rest := fun hm => h (List.mem_cons_of_mem c hm)
    simp only [List.cons_append, pySplitChar, List.append_eq]
    rw [ih hrest]
    simp [hc]

/-- C7 helper: the split of a freshly formatted two-part room id. -/
theorem pySplitChar_format (m i : Str) (hm : ':' ∉ m) (hi : ':' ∉ i) :
    pySplitChar ':' (m ++ ':' :: i) = [m, i] := by
  rw [pySplitChar_append ':' m i hm, pySplitChar_no_sep ':' i hi]

/-- C7: for any medium and identifier containing no colon,
`parse_room_id` applied to `format_room_id medium identifier` recovers
exactly that medium and identifier (and no reference parts). -/
theorem parse_format_room_id_round_trip (m i : Str)
    (hm : ':' ∉ m) (hi : ':' ∉ i) :
    parse_room_id (format_room_id m i none none) =
      { medium := some m, identifier := some i,
        reference_doctype := none, reference_name := none } := by
  show parse_room_id (m ++ ':' :: i) = _
  unfold parse_room_id
  rw [pySplitChar_format m i hm hi]
  rfl

/-- C7 witness: the round trip evaluated at the concrete room
`Email:alice@example.com`. -/
theorem parse_format_room_id_round_trip_witness :
    parse_room_id (format_room_id (str "Email") (str "alice@example.com") none none) =
      { medium := some (str "Email"), identifier := some (str "alice@example.com"),
        reference_doctype := none, reference_name := none } :=
  parse_format_room_id_round_trip (str "Email") (str "alice@example.com")
    (by decide) (by decide)

/-- Lemma: the status block changes only the flag and tracked status. -/
theorem roomStepStatus_fields (a : RoomAccum) (c : Communication) :
    (roomStepStatus a c).rep = a.rep ∧
    (roomStepStatus a c).ext_identifier = a.ext_identifier ∧
    (roomStepStatus a c).ext_name = a.ext_name ∧
    (roomStepStatus a c).unread_count = a.unread_count := by
  unfold roomStepStatus
  split_ifs <;> exact ⟨rfl, rfl, rfl, rfl⟩

/-- Lemma: the name block changes only the external name. -/
theorem roomStepName_fields (a : RoomAccum) (c : Communication) :
    (roomStepName a c).rep = a.rep ∧
    (roomStepName a c).ext_identifier = a.ext_identifier ∧
    (roomStepName a c).unread_count = a.unread_count ∧
    (roomStepName a c).has_unreplied = a.has_unreplied ∧
    (roomStepName a c).last_received_status = a.last_received_status := by
  unfold roomStepName
  split_ifs <;> exact ⟨rfl, rfl, rfl, rfl, rfl⟩

/-- Lemma: the unread block changes only the unread count. -/
theorem roomStepUnread_fields (a : RoomAccum) (c : Communication) :
    (roomStepUnread a c).rep = a.rep ∧
    (roomStepUnread a c).ext_identifier = a.ext_identifier ∧
    (roomStepUnread a c).ext_name = a.ext_name ∧
    (roomStepUnread a c).has_unreplied = a.has_unreplied ∧
    (roomStepUnread a c).last_received_status = a.last_received_status := by
  unfold roomStepUnread
  split_ifs <;> exact ⟨rfl, rfl, rfl, rfl, rfl⟩

/-- Lemma: the grouping step never changes the representative record. -/
theorem roomStep_rep (a : RoomAccum) (c : Communication) :
    (roomStep a c).rep = a.rep := by
  unfold roomStep
  rw [(roomStepUnread_fields _ c).1, (roomStepName_fields _ c).1,
    (roomStepStatus_fields a c).1]

/-- Lemma: the grouping step never changes the external identifier. -/
theorem roomStep_ext_identifier (a : RoomAccum) (c : Communication) :
    (roomStep a c).ext_identifier = a.ext_identifier := by
  unfold roomStep
  rw [(roomStepUnread_fields _ c).2.1, (roomStepName_fields _ c).2.1,
    (roomStepStatus_fields a c).2.1]

/-- Lemma: the grouping step adds one to the unread count exactly for an
unseen received record. -/
theorem roomStep_unread (a : RoomAccum) (c : Communication) :
    (roomStep a c).unread_count =
      a.unread_count +
        (if c.sent_or_received = str "Received" ∧ ¬ pyTruthyNat c.seen then 1 else 0) := by
  unfold roomStep roomStepUnread
  split_ifs <;>
    simp [(roomStepName_fields _ c).2.2.1, (roomStepStatus_fields a c).2.2.2]

/-- Lemma: the grouping step keeps the flag and tracked status of the
status block. -/
theorem roomStep_flag_eq (a : RoomAccum) (c : Communication) :
    (roomStep a c).has_unreplied = (roomStepStatus a c).has_unreplied ∧
    (roomStep a c).last_received_status = (roomStepStatus a c).last_received_status := by
  unfold roomStep
  exact ⟨((roomStepUnread_fields _ c).2.2.2.1).trans ((roomStepName_fields _ c).2.2.2.1),
    ((roomStepUnread_fields _ c).2.2.2.2).trans ((roomStepName_fields _ c).2.2.2.2)⟩

theorem recvStatuses_nil : recvStatuses [] = [] := rfl

theorem recvStatuses_cons (c : Communication) (l : List Communication) :
    recvStatuses (c :: l) =
      (if c.sent_or_received = str "Received" then [c.status] else []) ++ recvStatuses l := by
  unfold recvStatuses
  split_ifs with h <;> simp [h]

/-- Lemma: pushing one more status through `flagSpec` from an all-empty
prefix. -/
theorem flagSpec_append_all_empty (rs : List Str) (s : Str)
    (h : rs.all List.isEmpty = true) :
    flagSpec (rs ++ [s]) = (flagSpec rs || !(s = str "Replied" || s = str "Closed")) := by
  cases rs with
  | nil => simp [flagSpec]
  | cons t ts =>
    have ht : t.isEmpty = true := by
      have := List.all_eq_true.mp h t (List.mem_cons_self t ts)
      simpa using this
    have ht' : t = [] := List.isEmpty_iff.mp ht
    subst ht'
    simp [flagSpec, str]

/-- Lemma: appending a status to a nonempty prefix keeps the flag
specification. -/
theorem flagSpec_append_ne (rs : List Str) (s : Str) (h : rs ≠ []) :
    flagSpec (rs ++ [s]) = flagSpec rs := by
  cases rs with
  | nil => exact absurd rfl h
  | cons t ts => simp [flagSpec]

/-- Invariant preservation for a received record. -/
theorem roomStep_inv_recv (a : RoomAccum) (c : Communication) (rs : List Str)
    (h : RoomInv a rs) (hr : c.sent_or_received = str "Received") :
    RoomInv (roomStep a c) (rs ++ [c.status]) := by
  obtain ⟨hf, hl⟩ := h
  have hflag := (roomStep_flag_eq a c).1
  have hlrs := (roomStep_flag_eq a c).2
  unfold RoomInv
  rw [hflag, hlrs]
  unfold roomStepStatus
  rw [if_pos hr]
  by_cases hfal : lrsFalsy a.last_received_status = true
  · have hall : rs.all List.isEmpty = true := hl ▸ hfal
    rw [if_pos hfal]
    constructor
    · rw [flagSpec_append_all_empty rs c.status hall, hf]
    · simp [lrsFalsy, List.all_append, hall, List.isEmpty_iff]
  · have hfal' : lrsFalsy a.last_received_status = false := by
      simpa using hfal
    have hall : rs.all List.isEmpty = false := hl ▸ hfal'
    have hne : rs ≠ [] := by
      intro hnil
      rw [hnil] at hall
      simp at hall
    rw [if_neg hfal]
    constructor
    · rw [flagSpec_append_ne rs c.status hne, hf]
    · simp [hl, List.all_append, hall]

/-- Invariant preservation for a non-received record. -/
theorem roomStep_inv_other (a : RoomAccum) (c : Communication) (rs : List Str)
    (h : RoomInv a rs) (hr : ¬ c.sent_or_received = str "Received") :
    RoomInv (roomStep a c) rs := by
  obtain ⟨hf, hl⟩ := h
  have hflag := (roomStep_flag_eq a c).1
  have hlrs := (roomStep_flag_eq a c).2
  unfold RoomInv
  rw [hflag, hlrs]
  unfold roomStepStatus
  rw [if_neg hr]
  exact ⟨hf, hl⟩

/-- Invariant preservation through the whole fold. -/
theorem roomFold_inv (l : List Communication) (a : RoomAccum) (rs : List Str)
    (h : RoomInv a rs) :
    RoomInv (l.foldl roomStep a) (rs ++ recvStatuses l) := by
  induction l generalizing a rs with
  | nil => simpa [recvStatuses_nil] using h
  | cons c rest ih =>
    rw [List.foldl_cons, recvStatuses_cons]
    by_cases hr : c.sent_or_received = str "Received"
    · have := ih (roomStep a c) (rs ++ [c.status]) (roomStep_inv_recv a c rs h hr)
      simpa [hr, List.append_assoc] using this
    · have := ih (roomStep a c) rs (roomStep_inv_other a c rs h hr)
      simpa [hr] using this

theorem findAssoc_setAssoc_self (k : Str) (v : RoomAccum)
    (m : List (Str × RoomAccum)) (h : (findAssoc k m).isSome) :
    findAssoc k (setAssoc k v m) = some v := by
  induction m with
  | nil => simp [findAssoc] at h
  | cons p rest ih =>
    obtain ⟨k', v'⟩ := p
    by_cases hk : k' = k
    · simp [findAssoc, setAssoc, hk]
    · simp only [findAssoc, setAssoc, if_neg hk] at h ⊢
      exact ih h

theorem findAssoc_setAssoc_ne (k k' : Str) (v : RoomAccum)
    (m : List (Str × RoomAccum)) (h : k' ≠ k) :
    findAssoc k' (setAssoc k v m) = findAssoc k' m := by
  induction m with
  | nil => rfl
  | cons p rest ih =>
    obtain ⟨k0, v0⟩ := p
    by_cases hk : k0 = k
    · subst hk
      unfold setAssoc
      rw [if_pos rfl]
      unfold findAssoc
      rw [if_neg (Ne.symm h), if_neg (Ne.symm h)]
    · simp only [setAssoc, if_neg hk, findAssoc]
      by_cases hk0 : k0 = k'
      · simp [hk0]
      · simp [hk0, ih]

theorem findAssoc_append (k : Str) (m l : List (Str × RoomAccum)) :
    findAssoc k (m ++ l) =
      match findAssoc k m with
      | some v => some v
      | none => findAssoc k l := by
  induction m with
  | nil => simp [findAssoc]
  | cons p rest ih =>
    obtain ⟨k0, v0⟩ := p
    by_cases hk : k0 = k
    · simp [findAssoc, hk]
    · simp [findAssoc, hk, ih]

/-- Characterisation of the grouping fold: looking a key up in the final
map is the per-key fold over exactly the records with that key. -/
theorem groupFold_findAssoc (L : List Communication)
    (m : List (Str × RoomAccum)) (k : Str) :
    findAssoc k (L.foldl groupStep m) =
      match findAssoc k m with
      | some a => some ((L.filter (fun c => comm_room_id c = k)).foldl roomStep a)
      | none => roomOf (L.filter (fun c => comm_room_id c = k)) := by
  induction L generalizing m with
  | nil =>
    cases h : findAssoc k m <;> simp [h, roomOf]
  | cons c rest ih =>
    rw [List.foldl_cons, ih]
    by_cases hck : comm_room_id c = k
    · subst hck
      unfold groupStep
      cases h : findAssoc (comm_room_id c) m with
      | some a =>
        rw [findAssoc_setAssoc_self _ _ _ (by simp [h])]
        simp [List.filter_cons, roomOf]
      | none =>
        rw [findAssoc_append]
        simp only [h, findAssoc]
        simp [List.filter_cons, roomOf]
    · have hfilter :
          (c :: rest).filter (fun c' => comm_room_id c' = k) =
            rest.filter (fun c' => comm_room_id c' = k) := by
        simp [List.filter_cons, hck]
      unfold groupStep
      cases h : findAssoc (comm_room_id c) m with
      | some a =>
        rw [findAssoc_setAssoc_ne _ _ _ _ (fun hh => hck hh.symm)]
        rw [hfilter]
      | none =>
        rw [findAssoc_append]
        cases h2 : findAssoc k m with
        | some a =>
          simp only [h2]
          rw [hfilter]
        | none =>
          simp only [h2, findAssoc, if_neg hck]
          rw [hfilter]

/-- The grouping loop starts from the empty map. -/
theorem groupRooms_findAssoc (L : List Communication) (k : Str) :
    findAssoc k (groupRooms L) = roomOf (L.filter (fun c => comm_room_id c = k)) := by
  unfold groupRooms
  rw [groupFold_findAssoc]
  rfl

theorem findAssoc_eq_none_iff (k : Str) (m : List (Str × RoomAccum)) :
    findAssoc k m = none ↔ k ∉ m.map Prod.fst := by
  induction m with
  | nil => exact ⟨fun _ h => by simp at h, fun _ => rfl⟩
  | cons p rest ih =>
    obtain ⟨k0, v0⟩ := p
    simp only [List.map_cons, List.mem_cons]
    by_cases hk : k0 = k
    · subst hk
      unfold findAssoc
      rw [if_pos rfl]
      exact ⟨fun h => Option.noConfusion h, fun h => absurd (Or.inl rfl) h⟩
    · unfold findAssoc
      rw [if_neg hk, ih]
      constructor
      · intro h hmem
        rcases hmem with h1 | h2
        · exact hk h1.symm
        · exact h h2
      · intro h hm2
        exact h (Or.inr hm2)

theorem setAssoc_keys (k : Str) (v : RoomAccum) (m : List (Str × RoomAccum)) :
    (setAssoc k v m).map Prod.fst = m.map Prod.fst := by
  induction m with
  | nil => rfl
  | cons p rest ih =>
    obtain ⟨k0, v0⟩ := p
    by_cases hk : k0 = k <;> simp [setAssoc, hk, ih]

/-- Keys of the grouped room map are distinct. -/
theorem groupFold_keys_nodup (L : List Communication)
    (m : List (Str × RoomAccum)) (h : (m.map Prod.fst).Nodup) :
    ((L.foldl groupStep m).map Prod.fst).Nodup := by
  induction L generalizing m with
  | nil => exact h
  | cons c rest ih =>
    rw [List.foldl_cons]
    apply ih
    unfold groupStep
    cases hf : findAssoc (comm_room_id c) m with
    | some a => rw [setAssoc_keys]; exact h
    | none =>
      have hk : comm_room_id c ∉ m.map Prod.fst := (findAssoc_eq_none_iff _ m).mp hf
      simp only [List.map_append, List.map_cons, List.map_nil]
      refine List.Nodup.append h (List.nodup_singleton _) ?_
      intro x hx hxmem
      have hxeq : x = comm_room_id c := by simpa using hxmem
      subst hxeq
      exact hk hx

theorem groupRooms_keys_nodup (L : List Communication) :
    ((groupRooms L).map Prod.fst).Nodup :=
  groupFold_keys_nodup L [] (by simp)

/-- Membership in an association list with distinct keys agrees with
lookup. -/
theorem findAssoc_of_mem_nodup (k : Str) (a : RoomAccum)
    (m : List (Str × RoomAccum)) (hnd : (m.map Prod.fst).Nodup)
    (hm : (k, a) ∈ m) : findAssoc k m = some a := by
  induction m with
  | nil => simp at hm
  | cons p rest ih =>
    obtain ⟨k0, v0⟩ := p
    simp only [List.map_cons] at hnd
    have hnd' := List.nodup_cons.mp hnd
    rcases List.mem_cons.mp hm with heq | htail
    · have hk : k = k0 := congrArg Prod.fst heq
      have hv : a = v0 := congrArg Prod.snd heq
      subst hk
      unfold findAssoc
      rw [if_pos rfl, hv]
    · have hk0 : k0 ≠ k := by
        intro hk0
        subst hk0
        exact hnd'.1 (List.mem_map.mpr ⟨(k0, a), htail, rfl⟩)
      unfold findAssoc
      rw [if_neg hk0]
      exact ih hnd'.2 htail

theorem findAssoc_some_mem (k : Str) (a : RoomAccum)
    (m : List (Str × RoomAccum)) (h : findAssoc k m = some a) : (k, a) ∈ m := by
  induction m with
  | nil => exact absurd h (by unfold findAssoc; exact fun hh => Option.noConfusion hh)
  | cons p rest ih =>
    obtain ⟨k0, v0⟩ := p
    by_cases hk : k0 = k
    · subst hk
      unfold findAssoc at h
      rw [if_pos rfl] at h
      have hv := Option.some.inj h
      exact List.mem_cons.mpr (Or.inl (by rw [hv]))
    · unfold findAssoc at h
      rw [if_neg hk] at h
      exact List.mem_cons.mpr (Or.inr (ih h))

/-- Lemma: the room order implies the claimed pairwise shape (unreplied
rooms precede others, equal flags are ordered by date descending). -/
theorem roomOrderLE_imp (a b : Room) (hab : roomOrderLE a b) :
    (b.hasUnreplied = true → a.hasUnreplied = true) ∧
      (a.hasUnreplied = b.hasUnreplied → b.index ≤ a.index) := by
  unfold roomOrderLE roomRank at hab
  by_cases ha : a.hasUnreplied = true <;> by_cases hb : b.hasUnreplied = true <;>
    simp [ha, hb] at hab ⊢ <;> omega

/-- C4: rooms returned by `get_rooms` are ordered so that every room
with the unreplied flag precedes every room without it, and rooms with
equal flags appear in descending order of their representative date; in
particular, in the concrete scenario an older unreplied room A precedes
a newer replied room B. -/
theorem get_rooms_sort_order (db : Database) (page limit : Nat) (search medium : Str) :
    ((get_rooms db page limit search medium).rooms).Pairwise (fun a b =>
      (b.hasUnreplied = true → a.hasUnreplied = true) ∧
        (a.hasUnreplied = b.hasUnreplied → b.index ≤ a.index)) ∧
    ((get_rooms roomSortScenarioDb 1 20 [] (str "All")).rooms).map Room.roomId =
      [str "SMS:+15550000001", str "SMS:+15550000002"] := by
  constructor
  · simp only [get_rooms]
    apply List.Pairwise.sublist (List.Sublist.trans (List.take_sublist _ _) (List.drop_sublist _ _))
    exact List.Pairwise.imp (fun hab => roomOrderLE_imp _ _ hab)
      (List.sorted_insertionSort roomOrderLE _)
  · decide

theorem roomFold_rep (l : List Communication) (a : RoomAccum) :
    (l.foldl roomStep a).rep = a.rep := by
  induction l generalizing a with
  | nil => rfl
  | cons c rest ih => rw [List.foldl_cons, ih, roomStep_rep]

theorem roomFold_ext_identifier (l : List Communication) (a : RoomAccum) :
    (l.foldl roomStep a).ext_identifier = a.ext_identifier := by
  induction l generalizing a with
  | nil => rfl
  | cons c rest ih => rw [List.foldl_cons, ih, roomStep_ext_identifier]

/-- Representative and identifier of a room entry are those of its first
(most recent) record. -/
theorem roomOf_rep (c : Communication) (rest : List Communication) (a : RoomAccum)
    (h : roomOf (c :: rest) = some a) :
    a.rep = c ∧ a.ext_identifier = comm_room_identifier c := by
  have ha : a = rest.foldl roomStep (roomStep (initAccum c) c) :=
    (Option.some.inj h).symm
  subst ha
  constructor
  · rw [roomFold_rep, roomStep_rep]; rfl
  · rw [roomFold_ext_identifier, roomStep_ext_identifier]; rfl

/-- The unreplied flag of a room entry satisfies its specification over
the received statuses of the whole thread. -/
theorem roomOf_flag (c : Communication) (rest : List Communication) (a : RoomAccum)
    (h : roomOf (c :: rest) = some a) :
    a.has_unreplied = flagSpec (recvStatuses (c :: rest)) := by
  have h0 : RoomInv (initAccum c) [] := ⟨rfl, rfl⟩
  have h1 : RoomInv (roomStep (initAccum c) c) (recvStatuses [c]) := by
    by_cases hr : c.sent_or_received = str "Received"
    · have := roomStep_inv_recv (initAccum c) c [] h0 hr
      simpa [recvStatuses_cons, recvStatuses_nil, hr] using this
    · have := roomStep_inv_other (initAccum c) c [] h0 hr
      simpa [recvStatuses_cons, recvStatuses_nil, hr] using this
  have h2 := roomFold_inv rest _ _ h1
  have ha : a = rest.foldl roomStep (roomStep (initAccum c) c) :=
    (Option.some.inj h).symm
  subst ha
  have hs : recvStatuses [c] ++ recvStatuses rest = recvStatuses (c :: rest) := by
    simp [recvStatuses_cons, recvStatuses_nil]
  rw [h2.1, hs]

/-- A date-unique list sorted in descending order is strictly
descending. -/
theorem sorted_strict_date (L : List Communication)
    (hnd : L.Pairwise (fun x y => x.communication_date ≠ y.communication_date)) :
    (List.insertionSort commDateDesc L).Pairwise
      (fun x y => y.communication_date < x.communication_date) := by
  have hperm := List.perm_insertionSort commDateDesc L
  have hnd' : (List.insertionSort commDateDesc L).Pairwise
      (fun x y => x.communication_date ≠ y.communication_date) :=
    (hperm.pairwise_iff (fun h => h.symm)).mpr hnd
  have hsorted := List.sorted_insertionSort commDateDesc L
  refine List.Pairwise.imp ?_ (List.Pairwise.and hsorted hnd')
  rintro a b ⟨hle, hne⟩
  exact Nat.lt_of_le_of_ne hle (fun h => hne (h.symm))

/-- The flag specification over a strictly date-descending received list
is equivalent to the claimed form: some received record has the maximal
date and a status outside Replied and Closed. -/
theorem flagSpec_iff_max (S : List Communication)
    (hstrict : S.Pairwise (fun x y => y.communication_date < x.communication_date)) :
    (flagSpec (S.map Communication.status) = true ↔
      ∃ c ∈ S, (∀ c' ∈ S, c' ≠ c → c'.communication_date < c.communication_date) ∧
        ¬(c.status = str "Replied" ∨ c.status = str "Closed")) := by
  cases S with
  | nil => simp [flagSpec]
  | cons r tail =>
    simp only [List.map_cons, flagSpec]
    constructor
    · intro hbad
      refine ⟨r, List.mem_cons_self r tail, ?_, ?_⟩
      · intro c' hc' hne
        rcases List.mem_cons.mp hc' with h1 | h2
        · exact absurd h1 hne
        · exact (List.pairwise_cons.mp hstrict).1 c' h2
      · simpa using hbad
    · rintro ⟨c, hc, hmax, hbad⟩
      have hcr : c = r := by
        by_contra hne
        rcases List.mem_cons.mp hc with h1 | h2
        · exact hne h1
        · have h3 : c.communication_date < r.communication_date :=
            (List.pairwise_cons.mp hstrict).1 c h2
          have h4 : r.communication_date < c.communication_date :=
            hmax r (List.mem_cons_self r tail) (fun hh => hne hh.symm)
          omega
      subst hcr
      simpa using hbad

/-- Transfer of the max-date form along a permutation. -/
theorem exists_max_perm (S T : List Communication) (P : Communication → Prop)
    (hp : S.Perm T) :
    ((∃ c ∈ S, (∀ c' ∈ S, c' ≠ c → c'.communication_date < c.communication_date) ∧ P c) ↔
      (∃ c ∈ T, (∀ c' ∈ T, c' ≠ c → c'.communication_date < c.communication_date) ∧ P c)) := by
  constructor
  · rintro ⟨c, hc, hmax, hP⟩
    exact ⟨c, hp.mem_iff.mp hc, fun c' hc' => hmax c' (hp.mem_iff.mpr hc'), hP⟩
  · rintro ⟨c, hc, hmax, hP⟩
    exact ⟨c, hp.mem_iff.mpr hc, fun c' hc' => hmax c' (hp.mem_iff.mp hc'), hP⟩

/-- C2: a room returned by `get_rooms` carries the unreplied flag
exactly when its thread contains at least one received record and the
received record with the maximal communication date has a status outside
Replied and Closed; statuses of older received records never influence
the flag.  Pairwise distinct dates make the most recent received record
well defined. -/
theorem get_rooms_hasUnreplied_iff (db : Database) (page limit : Nat)
    (search medium : Str)
    (hnd : db.comms.Pairwise (fun x y => x.communication_date ≠ y.communication_date)) :
    ∀ room ∈ (get_rooms db page limit search medium).rooms,
      (room.hasUnreplied = true ↔
        ∃ c ∈ roomReceived db search medium room.roomId,
          (∀ c' ∈ roomReceived db search medium room.roomId,
            c' ≠ c → c'.communication_date < c.communication_date) ∧
          ¬(c.status = str "Replied" ∨ c.status = str "Closed")) := by
  intro room hroom
  simp only [get_rooms] at hroom
  have hroom1 := List.mem_of_mem_drop (List.mem_of_mem_take hroom)
  have hroom2 : room ∈ (groupRooms (List.insertionSort commDateDesc
      (db.comms.filter (roomsBaseFilter medium search)))).map
        (fun p => build_room_from_thread p.2) :=
    (List.perm_insertionSort roomOrderLE _).mem_iff.mp hroom1
  obtain ⟨⟨k, a⟩, hmem, hbuild⟩ := List.mem_map.mp hroom2
  have hfind : findAssoc k (groupRooms (List.insertionSort commDateDesc
      (db.comms.filter (roomsBaseFilter medium search)))) = some a :=
    findAssoc_of_mem_nodup k a _ (groupRooms_keys_nodup _) hmem
  rw [groupRooms_findAssoc] at hfind
  cases hfk : (List.insertionSort commDateDesc
      (db.comms.filter (roomsBaseFilter medium search))).filter
        (fun c => comm_room_id c = k) with
  | nil =>
    rw [hfk] at hfind
    exact absurd hfind (fun h => Option.noConfusion h)
  | cons c0 ctail =>
    rw [hfk] at hfind
    obtain ⟨hrep, hext⟩ := roomOf_rep c0 ctail a hfind
    have hflag := roomOf_flag c0 ctail a hfind
    have hc0 : comm_room_id c0 = k := by
      have hmemc0 : c0 ∈ (List.insertionSort commDateDesc
          (db.comms.filter (roomsBaseFilter medium search))).filter
            (fun c => comm_room_id c = k) := hfk ▸ List.mem_cons_self c0 ctail
      simpa using (List.mem_filter.mp hmemc0).2
    have hrid : room.roomId = k := by
      rw [← hbuild]
      show a.rep.communication_medium ++ ':' :: a.ext_identifier = k
      rw [hrep, hext]
      exact hc0
    have hflagroom : room.hasUnreplied = a.has_unreplied := by
      rw [← hbuild]
      rfl
    have hndLb : (db.comms.filter (roomsBaseFilter medium search)).Pairwise
        (fun x y => x.communication_date ≠ y.communication_date) :=
      List.Pairwise.sublist (List.filter_sublist db.comms) hnd
    have hstrict := sorted_strict_date _ hndLb
    have hstrictS := (hstrict.filter (fun c => comm_room_id c = k)).filter
      (fun c => c.sent_or_received = str "Received")
    have hflagS : a.has_unreplied = flagSpec
        ((((List.insertionSort commDateDesc
          (db.comms.filter (roomsBaseFilter medium search))).filter
            (fun c => comm_room_id c = k)).filter
              (fun c => c.sent_or_received = str "Received")).map Communication.status) := by
      rw [hflag, hfk]
      rfl
    have hiff := flagSpec_iff_max _ hstrictS
    have hpermS : ((((List.insertionSort commDateDesc
        (db.comms.filter (roomsBaseFilter medium search))).filter
          (fun c => comm_room_id c = k)).filter
            (fun c => c.sent_or_received = str "Received"))).Perm
        (roomReceived db search medium room.roomId) := by
      rw [hrid]
      unfold roomReceived roomThread
      exact ((List.perm_insertionSort commDateDesc _).filter _).filter _
    rw [hflagroom, hflagS]
    exact hiff.trans (exists_max_perm _ _ _ hpermS)

/-- C2 witness: in the concrete state the returned room has the
unreplied flag off, and the flag equivalence holds for it with every
hypothesis discharged. -/
theorem get_rooms_hasUnreplied_iff_witness :
    (⟨str "SMS:+15550000003", 0, 200, false⟩ : Room) ∈
        (get_rooms c2WitnessDb 1 20 [] (str "All")).rooms ∧
      ((⟨str "SMS:+15550000003", 0, 200, false⟩ : Room).hasUnreplied = true ↔
        ∃ c ∈ roomReceived c2WitnessDb [] (str "All")
            (⟨str "SMS:+15550000003", 0, 200, false⟩ : Room).roomId,
          (∀ c' ∈ roomReceived c2WitnessDb [] (str "All")
              (⟨str "SMS:+15550000003", 0, 200, false⟩ : Room).roomId,
            c' ≠ c → c'.communication_date < c.communication_date) ∧
          ¬(c.status = str "Replied" ∨ c.status = str "Closed")) :=
  ⟨by decide,
    get_rooms_hasUnreplied_iff c2WitnessDb 1 20 [] (str "All") (by decide)
      ⟨str "SMS:+15550000003", 0, 200, false⟩ (by decide)⟩

theorem sumUnread_setAssoc (k : Str) (v : RoomAccum)
    (m : List (Str × RoomAccum)) (a : RoomAccum)
    (hfind : findAssoc k m = some a) :
    sumUnread (setAssoc k v m) + a.unread_count = sumUnread m + v.unread_count := by
  induction m with
  | nil => exact absurd hfind (fun h => Option.noConfusion h)
  | cons p rest ih =>
    obtain ⟨k0, v0⟩ := p
    by_cases hk : k0 = k
    · subst hk
      unfold findAssoc at hfind
      rw [if_pos rfl] at hfind
      have hv : v0 = a := Option.some.inj hfind
      subst hv
      unfold setAssoc
      rw [if_pos rfl]
      unfold sumUnread
      simp [Nat.add_comm, Nat.add_left_comm]
    · unfold findAssoc at hfind
      rw [if_neg hk] at hfind
      unfold setAssoc
      rw [if_neg hk]
      have := ih hfind
      unfold sumUnread at this ⊢
      simp only [List.map_cons, List.sum_cons]
      omega

theorem sumUnread_groupStep (m : List (Str × RoomAccum)) (c : Communication) :
    sumUnread (groupStep m c) =
      sumUnread m +
        (if c.sent_or_received = str "Received" ∧ ¬ pyTruthyNat c.seen then 1 else 0) := by
  unfold groupStep
  cases hf : findAssoc (comm_room_id c) m with
  | some a =>
    show sumUnread (setAssoc (comm_room_id c) (roomStep a c) m) = _
    have h1 := sumUnread_setAssoc (comm_room_id c) (roomStep a c) m a hf
    have h2 := roomStep_unread a c
    omega
  | none =>
    show sumUnread (m ++ [(comm_room_id c, roomStep (initAccum c) c)]) = _
    unfold sumUnread
    rw [List.map_append, List.sum_append]
    have h2 := roomStep_unread (initAccum c) c
    have h0 : (initAccum c).unread_count = 0 := rfl
    simp only [List.map_cons, List.map_nil, List.sum_cons, List.sum_nil]
    omega

theorem sumUnread_groupFold (L : List Communication) (m : List (Str × RoomAccum)) :
    sumUnread (L.foldl groupStep m) = sumUnread m + countUnreadRecv L := by
  induction L generalizing m with
  | nil => simp [countUnreadRecv]
  | cons c rest ih =>
    rw [List.foldl_cons, ih, sumUnread_groupStep]
    unfold countUnreadRecv
    by_cases hp : c.sent_or_received = str "Received" ∧ ¬ pyTruthyNat c.seen
    · rw [if_pos hp, List.filter_cons, if_pos (by simpa using hp)]
      simp only [List.length_cons]
      omega
    · rw [if_neg hp, List.filter_cons, if_neg (by simpa using hp)]
      omega

theorem sumUnread_groupRooms (L : List Communication) :
    sumUnread (groupRooms L) = countUnreadRecv L := by
  unfold groupRooms
  rw [sumUnread_groupFold]
  simp [sumUnread]

/-- Slicing a list into `P` consecutive pages of size `limit` and
concatenating the pages recovers the list, provided the pages cover
it. -/
theorem pages_flatten {α : Type} (limit : Nat) :
    ∀ (P : Nat) (l : List α), l.length ≤ P * limit →
      ((List.range P).map (fun i => (l.drop (i * limit)).take limit)).flatten = l := by
  intro P
  induction P with
  | zero =>
    intro l hl
    have : l = [] := List.eq_nil_of_length_eq_zero (Nat.le_zero.mp (by simpa using hl))
    simp [this]
  | succ P ih =>
    intro l hl
    have hdrop : ∀ i : Nat, l.drop ((i + 1) * limit) = (l.drop limit).drop (i * limit) := by
      intro i
      rw [List.drop_drop]
      congr 1
      ring
    have hlen : (l.drop limit).length ≤ P * limit := by
      rw [List.length_drop]
      have hsucc : (P + 1) * limit = P * limit + limit := by ring
      omega
    have ihl := ih (l.drop limit) hlen
    rw [List.range_succ_eq_map, List.map_cons, List.flatten_cons, List.map_map]
    have hcomp : (List.range P).map ((fun i => (l.drop (i * limit)).take limit) ∘ Nat.succ)
        = (List.range P).map (fun i => ((l.drop limit).drop (i * limit)).take limit) := by
      apply List.map_congr_left
      intro i _
      simp only [Function.comp]
      rw [show Nat.succ i = i + 1 from rfl, hdrop i]
    rw [hcomp, ihl, Nat.zero_mul, List.drop_zero]
    exact List.take_append_drop limit l

/-- The room id of a built room equals the key of its map entry. -/
theorem groupRooms_mem_roomId (L : List Communication) (k : Str) (a : RoomAccum)
    (hmem : (k, a) ∈ groupRooms L) :
    (build_room_from_thread a).roomId = k := by
  have hfind : findAssoc k (groupRooms L) = some a :=
    findAssoc_of_mem_nodup k a _ (groupRooms_keys_nodup L) hmem
  rw [groupRooms_findAssoc] at hfind
  cases hfk : L.filter (fun c => comm_room_id c = k) with
  | nil =>
    rw [hfk] at hfind
    exact absurd hfind (fun h => Option.noConfusion h)
  | cons c0 t =>
    rw [hfk] at hfind
    obtain ⟨hrep, hext⟩ := roomOf_rep c0 t a hfind
    have hc0 : comm_room_id c0 = k := by
      have hm : c0 ∈ L.filter (fun c => comm_room_id c = k) :=
        hfk ▸ List.mem_cons_self c0 t
      simpa using (List.mem_filter.mp hm).2
    show a.rep.communication_medium ++ ':' :: a.ext_identifier = k
    rw [hrep, hext]
    exact hc0

/-- Every listed record has a room entry under its key. -/
theorem mem_groupRooms_of_mem (L : List Communication) (c : Communication)
    (hc : c ∈ L) : ∃ a, (comm_room_id c, a) ∈ groupRooms L := by
  have hfa := groupRooms_findAssoc L (comm_room_id c)
  cases hfk : L.filter (fun x => comm_room_id x = comm_room_id c) with
  | nil =>
    have hcf : c ∈ L.filter (fun x => comm_room_id x = comm_room_id c) :=
      List.mem_filter.mpr ⟨hc, by simp⟩
    rw [hfk] at hcf
    cases hcf
  | cons c0 t =>
    rw [hfk] at hfa
    refine ⟨t.foldl roomStep (roomStep (initAccum c0) c0),
      findAssoc_some_mem _ _ _ ?_⟩
    rw [hfa]
    rfl

theorem commMatchesMedium_all (c : Communication) :
    commMatchesMedium (str "All") c = true := by
  unfold commMatchesMedium
  rw [if_neg (by decide : ¬(str "All" ≠ [] ∧ str "All" ≠ str "All"))]

theorem commMatchesSearch_empty (c : Communication) :
    commMatchesSearch [] c = true := by
  unfold commMatchesSearch
  rw [if_neg (by decide : ¬(([] : Str) ≠ []))]

theorem countUnreadRecv_perm (L L' : List Communication) (h : L.Perm L') :
    countUnreadRecv L = countUnreadRecv L' := by
  unfold countUnreadRecv
  exact (h.filter _).length_eq

/-- C10: with medium All and empty search, every record of type
Communication is assigned to exactly one room of the full paged room
listing, and the unread counts summed across all pages equal the global
unread count (received records with seen equal to 0). -/
theorem get_rooms_unread_partition (db : Database) (limit P : Nat)
    (hlim : limit ≠ 0)
    (hseen : ∀ c ∈ db.comms, c.seen = some 0 ∨ c.seen = some 1)
    (hP : (get_rooms db 1 limit [] (str "All")).total ≤ P * limit) :
    (∀ c ∈ db.comms, c.communication_type = str "Communication" →
      ∃ r ∈ ((List.range P).map
          (fun i => (get_rooms db (i + 1) limit [] (str "All")).rooms)).flatten,
        r.roomId = comm_room_id c ∧
        ∀ r' ∈ ((List.range P).map
            (fun i => (get_rooms db (i + 1) limit [] (str "All")).rooms)).flatten,
          r'.roomId = comm_room_id c → r' = r) ∧
    ((((List.range P).map
        (fun i => (get_rooms db (i + 1) limit [] (str "All")).rooms)).flatten.map
          Room.unreadCount).sum = get_unread_count db) := by
  have hpage : ∀ i : Nat, (get_rooms db (i + 1) limit [] (str "All")).rooms =
      ((List.insertionSort roomOrderLE ((groupRooms (List.insertionSort commDateDesc
        (db.comms.filter (roomsBaseFilter (str "All") [])))).map
          (fun p => build_room_from_thread p.2))).drop (i * limit)).take limit := by
    intro i
    simp only [get_rooms]
    rw [if_neg (Nat.succ_ne_zero i), if_neg hlim]
    rw [Nat.add_sub_cancel]
  have htotal : (get_rooms db 1 limit [] (str "All")).total =
      (List.insertionSort roomOrderLE ((groupRooms (List.insertionSort commDateDesc
        (db.comms.filter (roomsBaseFilter (str "All") [])))).map
          (fun p => build_room_from_thread p.2))).length := rfl
  have hflat : ((List.range P).map
      (fun i => (get_rooms db (i + 1) limit [] (str "All")).rooms)).flatten =
      List.insertionSort roomOrderLE ((groupRooms (List.insertionSort commDateDesc
        (db.comms.filter (roomsBaseFilter (str "All") [])))).map
          (fun p => build_room_from_thread p.2)) := by
    have hmapeq : (List.range P).map
        (fun i => (get_rooms db (i + 1) limit [] (str "All")).rooms) =
        (List.range P).map (fun i =>
          ((List.insertionSort roomOrderLE ((groupRooms (List.insertionSort commDateDesc
            (db.comms.filter (roomsBaseFilter (str "All") [])))).map
              (fun p => build_room_from_thread p.2))).drop (i * limit)).take limit) :=
      List.map_congr_left (fun i _ => hpage i)
    rw [hmapeq]
    apply pages_flatten
    rw [htotal] at hP
    exact hP
  constructor
  · intro c hc htype
    have hbase : roomsBaseFilter (str "All") [] c = true := by
      unfold roomsBaseFilter
      rw [commMatchesMedium_all, commMatchesSearch_empty]
      simp [htype]
    have hcLb : c ∈ db.comms.filter (roomsBaseFilter (str "All") []) :=
      List.mem_filter.mpr ⟨hc, hbase⟩
    have hcLs : c ∈ List.insertionSort commDateDesc
        (db.comms.filter (roomsBaseFilter (str "All") [])) :=
      (List.perm_insertionSort commDateDesc _).mem_iff.mpr hcLb
    obtain ⟨a, hmem⟩ := mem_groupRooms_of_mem _ c hcLs
    refine ⟨build_room_from_thread a, ?_, groupRooms_mem_roomId _ _ _ hmem, ?_⟩
    · rw [hflat]
      exact (List.perm_insertionSort roomOrderLE _).mem_iff.mpr
        (List.mem_map.mpr ⟨(comm_room_id c, a), hmem, rfl⟩)
    · intro r' hr' hrid
      rw [hflat] at hr'
      have hr'2 : r' ∈ (groupRooms (List.insertionSort commDateDesc
          (db.comms.filter (roomsBaseFilter (str "All") [])))).map
            (fun p => build_room_from_thread p.2) :=
        (List.perm_insertionSort roomOrderLE _).mem_iff.mp hr'
      obtain ⟨⟨k', a'⟩, hmem', hbuild'⟩ := List.mem_map.mp hr'2
      have hkid : (build_room_from_thread a').roomId = k' :=
        groupRooms_mem_roomId _ _ _ hmem'
      have hk' : k' = comm_room_id c := by
        rw [← hkid, hbuild', hrid]
      subst hk'
      have h1 : findAssoc (comm_room_id c) (groupRooms (List.insertionSort commDateDesc
          (db.comms.filter (roomsBaseFilter (str "All") [])))) = some a' :=
        findAssoc_of_mem_nodup _ _ _ (groupRooms_keys_nodup _) hmem'
      have h2 : findAssoc (comm_room_id c) (groupRooms (List.insertionSort commDateDesc
          (db.comms.filter (roomsBaseFilter (str "All") [])))) = some a :=
        findAssoc_of_mem_nodup _ _ _ (groupRooms_keys_nodup _) hmem
      have ha : a' = a := Option.some.inj (h1.symm.trans h2)
      rw [← hbuild', ha]
  · rw [hflat]
    have hperm1 := List.perm_insertionSort roomOrderLE
      ((groupRooms (List.insertionSort commDateDesc
        (db.comms.filter (roomsBaseFilter (str "All") [])))).map
          (fun p => build_room_from_thread p.2))
    rw [(hperm1.map Room.unreadCount).sum_eq, List.map_map]
    have hmaps : ((groupRooms (List.insertionSort commDateDesc
        (db.comms.filter (roomsBaseFilter (str "All") [])))).map
          (Room.unreadCount ∘ fun p => build_room_from_thread p.2)).sum =
        sumUnread (groupRooms (List.insertionSort commDateDesc
          (db.comms.filter (roomsBaseFilter (str "All") [])))) := rfl
    rw [hmaps, sumUnread_groupRooms,
      countUnreadRecv_perm _ _ (List.perm_insertionSort commDateDesc _)]
    unfold countUnreadRecv get_unread_count
    rw [List.filter_filter]
    congr 1
    apply List.filter_congr
    intro c hc
    rw [show (roomsBaseFilter (str "All") [] c) = decide
        (c.communication_type = str "Communication") from ?_]
    · rcases hseen c hc with h | h <;>
        rw [h] <;>
        by_cases ht : c.communication_type = str "Communication" <;>
        by_cases hr : c.sent_or_received = str "Received" <;>
        simp [ht, hr, pyTruthyNat]
    · unfold roomsBaseFilter
      rw [commMatchesMedium_all, commMatchesSearch_empty]
      simp

/-- C8: on the concrete reply
`"Hello there\n\nOn January 5, 2024 at 3:00 PM, Jane Doe wrote:\n> previous message"`,
`strip_quoted_replies` returns exactly `"Hello there"`, whichever of the
realistic behaviours the external reply parser exhibits (raising, the
identity, or the stripped reply that the real library returns for this
input). -/
theorem strip_quoted_replies_example :
    strip_quoted_replies none
        (str "Hello there\n\nOn January 5, 2024 at 3:00 PM, Jane Doe wrote:\n> previous message") =
      str "Hello there" ∧
    strip_quoted_replies
        (some (str "Hello there\n\nOn January 5, 2024 at 3:00 PM, Jane Doe wrote:\n> previous message"))
        (str "Hello there\n\nOn January 5, 2024 at 3:00 PM, Jane Doe wrote:\n> previous message") =
      str "Hello there" ∧
    strip_quoted_replies (some (str "Hello there"))
        (str "Hello there\n\nOn January 5, 2024 at 3:00 PM, Jane Doe wrote:\n> previous message") =
      str "Hello there" := by
  refine ⟨?_, ?_, ?_⟩ <;> decide

/-- C9: the four concrete E.164 normalisation and validation facts:
formatting a US national number, passing an already normalised number
through unchanged, rejecting a number without `+`, and accepting a valid
E.164 number. -/
theorem phone_normalization_examples :
    convert_to_e164 (some (str "(202) 555-1234")) (str "US") = some (str "+12025551234") ∧
    convert_to_e164 (some (str "+12025551234")) (str "US") = some (str "+12025551234") ∧
    is_valid_e164_number (str "2025551234") = false ∧
    is_valid_e164_number (str "+12025551234") = true := by
  refine ⟨?_, ?_, ?_, ?_⟩ <;> decide

theorem pySliceInt_tail {α : Type} (l : List α) (k : Nat) :
    pySliceInt l (max 0 ((l.length : Int) - (k : Int))) (l.length : Int) =
      l.drop (l.length - k) := by
  unfold pySliceInt
  have hb : pySliceIdx l.length (l.length : Int) = l.length := by
    unfold pySliceIdx
    rw [if_neg (by omega)]
    omega
  have ha : pySliceIdx l.length (max 0 ((l.length : Int) - (k : Int))) = l.length - k := by
    unfold pySliceIdx
    rw [if_neg (by omega)]
    omega
  rw [hb, ha, List.take_length]

/-- C3: for a well-formed room id and pages and limits of at least one,
`get_messages` returns exactly the Python slice
`messages[start:end]` of the oldest-first built thread, with
`start = max(0, N - page*limit)` and `end = N - (page-1)*limit`;
`hasMore` holds exactly when the window still leaves older messages
(`page*limit < N`); and page 1 yields the most recent `limit`
messages. -/
theorem get_messages_pagination (db : Database) (erp : Str → Option Str)
    (current_user room_id medium identifier : Str) (page limit : Nat)
    (hm : (parse_room_id room_id).medium.getD [] = medium)
    (hi : (parse_room_id room_id).identifier.getD [] = identifier)
    (hm0 : medium ≠ []) (hi0 : identifier ≠ [])
    (hpage : 1 ≤ page) (hlimit : 1 ≤ limit) :
    (get_messages db erp current_user room_id page limit).messages =
      pySliceInt (builtThread db erp current_user medium identifier)
        (max 0 (((builtThread db erp current_user medium identifier).length : Int) -
          (page : Int) * (limit : Int)))
        (((builtThread db erp current_user medium identifier).length : Int) -
          ((page : Int) - 1) * (limit : Int)) ∧
    ((get_messages db erp current_user room_id page limit).hasMore = true ↔
      page * limit < (builtThread db erp current_user medium identifier).length) ∧
    (page = 1 →
      (get_messages db erp current_user room_id page limit).messages =
        (builtThread db erp current_user medium identifier).drop
          ((builtThread db erp current_user medium identifier).length - limit)) := by
  have hp0 : ¬ page = 0 := by omega
  have hl0 : ¬ limit = 0 := by omega
  have hval : ¬ (medium = [] ∨ identifier = []) := by
    push_neg
    exact ⟨hm0, hi0⟩
  have hmsg : (get_messages db erp current_user room_id page limit).messages =
      pySliceInt (builtThread db erp current_user medium identifier)
        (max 0 (((builtThread db erp current_user medium identifier).length : Int) -
          (page : Int) * (limit : Int)))
        (((builtThread db erp current_user medium identifier).length : Int) -
          ((page : Int) - 1) * (limit : Int)) := by
    simp only [get_messages, if_neg hp0, if_neg hl0, hm, hi]
    rw [if_neg hval]
  have hmore : (get_messages db erp current_user room_id page limit).hasMore =
      decide (0 < max 0 (((builtThread db erp current_user medium identifier).length : Int) -
        (page : Int) * (limit : Int))) := by
    simp only [get_messages, if_neg hp0, if_neg hl0, hm, hi]
    rw [if_neg hval]
  refine ⟨hmsg, ?_, ?_⟩
  · rw [hmore]
    simp only [decide_eq_true_eq]
    omega
  · intro hp1
    subst hp1
    rw [hmsg]
    have h1 : ((1 : Nat) : Int) * (limit : Int) = (limit : Int) := by norm_num
    have h2 : (((1 : Nat) : Int) - 1) * (limit : Int) = 0 := by norm_num
    rw [h1, h2, sub_zero]
    exact pySliceInt_tail _ limit

/-- C1: evaluation of `send_message` on a reply to a received record
whose name and message id differ.  The send succeeds and the answered
record's status flips to Replied (the second half of the claim), but
the new record's `in_reply_to` holds the target's primary document name
`CRM-00001`, not its `message_id` `SM123abc` — and consequently the
reply-preview resolution of `get_messages`, which matches
`message_id == in_reply_to`, finds no record for the stored value. -/
theorem send_message_in_reply_to_stores_name :
    (send_message c1BugEnv (str "SMS:+15551230000") (str "hi") [] []).1.success = true ∧
    ((send_message c1BugEnv (str "SMS:+15551230000") (str "hi") [] []).2.getLast?).map
        Communication.in_reply_to = some (str "CRM-00001") ∧
    c1BugTarget.name = str "CRM-00001" ∧
    c1BugTarget.message_id = str "SM123abc" ∧
    str "CRM-00001" ≠ str "SM123abc" ∧
    ((send_message c1BugEnv (str "SMS:+15551230000") (str "hi") [] []).2.find?
        (fun c => c.name = str "CRM-00001")).map Communication.status =
      some (str "Replied") ∧
    (send_message c1BugEnv (str "SMS:+15551230000") (str "hi") [] []).2.find?
        (fun c => c.message_id =
          (((send_message c1BugEnv (str "SMS:+15551230000") (str "hi") [] []).2.getLast?).map
            Communication.in_reply_to).getD []) = none := by
  refine ⟨?_, ?_, ?_, ?_, ?_, ?_, ?_⟩ <;> decide

/-- C6: `send_message` always returns a structured result for every
environment — including ones whose transports or persistence raise —
and a malformed room id yields exactly the `Invalid room ID` error; no
exception escapes (the embedded result type is total, and the caught
persistence exception surfaces as `{success := false, error := e}`). -/
theorem send_message_total (env : SendEnv) (room_id content reply_message_id subject : Str) :
    ((∃ m, (send_message env room_id content reply_message_id subject).1 =
        { success := true, message := some m, error := none }) ∨
      (∃ e, (send_message env room_id content reply_message_id subject).1 =
        { success := false, message := none, error := some e })) ∧
    (((parse_room_id room_id).medium.getD [] = [] ∨
        (parse_room_id room_id).identifier.getD [] = []) →
      (send_message env room_id content reply_message_id subject).1 =
        { success := false, message := none, error := some (str "Invalid room ID") }) := by
  constructor
  · by_cases hv : (parse_room_id room_id).medium.getD [] = [] ∨
        (parse_room_id room_id).identifier.getD [] = []
    · right
      refine ⟨str "Invalid room ID", ?_⟩
      simp only [send_message]
      rw [if_pos hv]
    · simp only [send_message]
      rw [if_neg hv]
      cases hsent : (if (parse_room_id room_id).medium.getD [] = str "SMS" then
          sendSms env content ((parse_room_id room_id).identifier.getD [])
            (autoSubject subject ((parse_room_id room_id).medium.getD [])
              ((parse_room_id room_id).identifier.getD [])
              (sendReplyContext env.db reply_message_id
                ((parse_room_id room_id).medium.getD [])
                ((parse_room_id room_id).identifier.getD [])
                ((parse_room_id room_id).reference_doctype.getD [])
                ((parse_room_id room_id).reference_name.getD [])).original_subject)
            ((parse_room_id room_id).reference_doctype.getD [])
            ((parse_room_id room_id).reference_name.getD [])
            (sendReplyContext env.db reply_message_id
              ((parse_room_id room_id).medium.getD [])
              ((parse_room_id room_id).identifier.getD [])
              ((parse_room_id room_id).reference_doctype.getD [])
              ((parse_room_id room_id).reference_name.getD [])).reply_message_id
        else
          sendEmail env content ((parse_room_id room_id).identifier.getD [])
            (autoSubject subject ((parse_room_id room_id).medium.getD [])
              ((parse_room_id room_id).identifier.getD [])
              (sendReplyContext env.db reply_message_id
                ((parse_room_id room_id).medium.getD [])
                ((parse_room_id room_id).identifier.getD [])
                ((parse_room_id room_id).reference_doctype.getD [])
                ((parse_room_id room_id).reference_name.getD [])).original_subject)
            ((parse_room_id room_id).reference_doctype.getD [])
            ((parse_room_id room_id).reference_name.getD [])
            (sendReplyContext env.db reply_message_id
              ((parse_room_id room_id).medium.getD [])
              ((parse_room_id room_id).identifier.getD [])
              ((parse_room_id room_id).reference_doctype.getD [])
              ((parse_room_id room_id).reference_name.getD [])).reply_message_id
            (sendReplyContext env.db reply_message_id
              ((parse_room_id room_id).medium.getD [])
              ((parse_room_id room_id).identifier.getD [])
              ((parse_room_id room_id).reference_doctype.getD [])
              ((parse_room_id room_id).reference_name.getD [])).reply_content_for_quote
            (sendReplyContext env.db reply_message_id
              ((parse_room_id room_id).medium.getD [])
              ((parse_room_id room_id).identifier.getD [])
              ((parse_room_id room_id).reference_doctype.getD [])
              ((parse_room_id room_id).reference_name.getD [])).reply_sender_for_quote
            (sendReplyContext env.db reply_message_id
              ((parse_room_id room_id).medium.getD [])
              ((parse_room_id room_id).identifier.getD [])
              ((parse_room_id room_id).reference_doctype.getD [])
              ((parse_room_id room_id).reference_name.getD [])).reply_date_for_quote
            (get_user_email_signature env.db env.sessionUser)) with
      | error e =>
        right
        exact ⟨e, rfl⟩
      | ok pr =>
        left
        exact ⟨_, rfl⟩
  · intro hv
    simp only [send_message]
    rw [if_pos hv]

/-- C6 witness: on a malformed room id the call returns exactly the
structured invalid-room error, with every hypothesis discharged at a
concrete environment whose transport raises. -/
theorem send_message_total_witness :
    (send_message c6WitnessEnv (str "nocolon") (str "x") [] []).1 =
      { success := false, message := none, error := some (str "Invalid room ID") } :=
  (send_message_total c6WitnessEnv (str "nocolon") (str "x") [] []).2 (by decide)

/-- C3 witness: the window equality evaluated at page 2 of size 2 over
the three-message thread, with every hypothesis discharged. -/
theorem get_messages_pagination_witness :
    (get_messages c3WitnessDb (fun _ => none) (str "u@example.com")
        (str "SMS:+15550000021") 2 2).messages =
      pySliceInt
        (builtThread c3WitnessDb (fun _ => none) (str "u@example.com")
          (str "SMS") (str "+15550000021"))
        (max 0 (((builtThread c3WitnessDb (fun _ => none) (str "u@example.com")
          (str "SMS") (str "+15550000021")).length : Int) - ((2 : Nat) : Int) * ((2 : Nat) : Int)))
        (((builtThread c3WitnessDb (fun _ => none) (str "u@example.com")
          (str "SMS") (str "+15550000021")).length : Int) -
            (((2 : Nat) : Int) - 1) * ((2 : Nat) : Int)) :=
  (get_messages_pagination c3WitnessDb (fun _ => none) (str "u@example.com")
    (str "SMS:+15550000021") (str "SMS") (str "+15550000021") 2 2
    (by decide) (by decide) (by decide) (by decide) (by decide) (by decide)).1

/-- C10 witness: the unread counts of the two one-room pages sum to the
global unread count, with every hypothesis discharged. -/
theorem get_rooms_unread_partition_witness :
    ((((List.range 2).map
        (fun i => (get_rooms c10WitnessDb (i + 1) 1 [] (str "All")).rooms)).flatten.map
          Room.unreadCount).sum = get_unread_count c10WitnessDb) :=
  (get_rooms_unread_partition c10WitnessDb 1 2 (by decide) (by decide) (by decide)).2

/-- C5: on an inbound SMS whose trimmed, case-folded body equals
`"stop"`, every contact with the sending number ends unsubscribed,
contacts with other numbers are untouched, exactly one confirmation
Communication is created (Sent, medium SMS, the fixed text), and
re-processing STOP leaves the contact table unchanged (idempotent
re-flagging). -/
theorem inbound_stop_optout (contacts : List ContactRec) (from_number body : Str)
    (hstop : pyLower (pyStrip body) = str "stop") :
    (∀ ct ∈ (handle_inbound_stop contacts from_number body).1,
        ct.phone = from_number → ct.unsubscribed = true) ∧
    (∀ ct ∈ contacts, ct.phone ≠ from_number →
        ct ∈ (handle_inbound_stop contacts from_number body).1) ∧
    (handle_inbound_stop contacts from_number body).2.length = 1 ∧
    (∀ m ∈ (handle_inbound_stop contacts from_number body).2,
        m.sent_or_received = str "Sent" ∧ m.communication_medium = str "SMS" ∧
          m.text_content = stopConfirmationText) ∧
    (handle_inbound_stop ((handle_inbound_stop contacts from_number body).1)
        from_number body).1 =
      (handle_inbound_stop contacts from_number body).1 := by
  unfold handle_inbound_stop
  rw [if_pos hstop, if_pos hstop]
  refine ⟨?_, ?_, rfl, ?_, ?_⟩
  · intro ct hct hphone
    obtain ⟨ct0, hct0, hmap⟩ := List.mem_map.mp hct
    by_cases h0 : ct0.phone = from_number
    · rw [← hmap, if_pos h0]
    · rw [← hmap, if_neg h0] at hphone ⊢
      exact absurd hphone h0
  · intro ct hct hne
    exact List.mem_map.mpr ⟨ct, hct, by rw [if_neg hne]⟩
  · intro m hm
    have hm1 : m = { baseComm with
        communication_medium := str "SMS"
        sent_or_received := str "Sent"
        phone_no := from_number
        recipients := from_number
        content := stopConfirmationText
        text_content := stopConfirmationText
        seen := some 0
        status := str "Open" } := by
      simpa using hm
    subst hm1
    exact ⟨rfl, rfl, rfl⟩
  · rw [List.map_map]
    apply List.map_congr_left
    intro ct _
    simp only [Function.comp]
    by_cases h0 : ct.phone = from_number
    · rw [if_pos h0]
      rw [if_pos (show ({ ct with unsubscribed := true } : ContactRec).phone = from_number from h0)]
    · rw [if_neg h0, if_neg h0]

/-- C5 witness: the opt-out conclusions at the concrete two-contact
scenario with the literal body `" STOP "`, hypothesis discharged by
evaluation. -/
theorem inbound_stop_optout_witness :
    pyLower (pyStrip (str " STOP ")) = str "stop" ∧
    ((∀ ct ∈ (handle_inbound_stop c5Contacts (str "+15557770001") (str " STOP ")).1,
        ct.phone = str "+15557770001" → ct.unsubscribed = true) ∧
    (∀ ct ∈ c5Contacts, ct.phone ≠ str "+15557770001" →
        ct ∈ (handle_inbound_stop c5Contacts (str "+15557770001") (str " STOP ")).1) ∧
    (handle_inbound_stop c5Contacts (str "+15557770001") (str " STOP ")).2.length = 1 ∧
    (∀ m ∈ (handle_inbound_stop c5Contacts (str "+15557770001") (str " STOP ")).2,
        m.sent_or_received = str "Sent" ∧ m.communication_medium = str "SMS" ∧
          m.text_content = stopConfirmationText) ∧
    (handle_inbound_stop
        ((handle_inbound_stop c5Contacts (str "+15557770001") (str " STOP ")).1)
        (str "+15557770001") (str " STOP ")).1 =
      (handle_inbound_stop c5Contacts (str "+15557770001") (str " STOP ")).1) :=
  ⟨by decide,
    inbound_stop_optout c5Contacts (str "+15557770001") (str " STOP ") (by decide)⟩
